import Mathlib

/-!
Verification development for the UPDI4AVR-USB firmware core.

The definitions below are shallow embeddings of functions from the
firmware sources (jtag.cpp, timeout.cpp, updi.cpp, tpi.cpp, sys.cpp,
nvmv0.cpp, nvmv4.cpp).  Machine integers are modelled as `Nat` with
explicit reductions (`% 256`, `% 65536`, `% 2^32`) where 8/16/32-bit
overflow matters.  Blocking polling loops are modelled with an explicit
fuel argument (`none` = the loop is still spinning when the fuel runs
out, which in the firmware is the case handled by the timeout
interrupt).  Wire traffic received by the USART is modelled as an
oracle `Wire : Nat → Nat × Nat` giving, for the k-th frame received,
the values of the `USART0_RXDATAH` and `USART0_RXDATAL` registers.
-/

set_option maxRecDepth 8192

namespace UPDI4AVR

/-- Pointwise update of a byte buffer modelled as `Nat → Nat`. -/
def bset (f : Nat → Nat) (i v : Nat) : Nat → Nat :=
  fun j => if j = i then v else f j

/-- Model of `memcpy`: copy the byte list `data` into buffer `f`
starting at offset `o`. -/
def bcopy : (Nat → Nat) → Nat → List Nat → (Nat → Nat)
  | f, _, [] => f
  | f, o, b :: t => bcopy (bset f o b) (o + 1) t

namespace JTAG

/-- The mutable state touched by the EDBG inbound fragment handler:
the logical packet buffer `packet.rawData` and the bookkeeping
variables `_packet_chunks`, `_packet_length`, `_packet_endfrag`. -/
structure EdbgState where
  buf     : Nat → Nat
  chunks  : Nat
  plength : Nat
  endfrag : Nat

/-- Model of the `_cmd == 0x80` (DAP_EDBG_VENDOR_AVR_CMD) branch of
`JTAG::dap_command_check` (jtag.cpp).  `sub` is the fragment header
byte `EP_MEM.dap_data[1]` (fragment index in the high nibble, declared
end-fragment count in the low nibble); `payload` is the list of
`_size = EP_MEM.dap_data[3]` bytes starting at `EP_MEM.dap_data[4]`.
The offset follows the C expression `(_frag - 1) * 60` evaluated in
16-bit `size_t` arithmetic.  Returns the new state, the boolean
`_result` of `dap_command_check`, and the response byte written back
to `EP_MEM.dap_data[1]` (0x01 = EDBG_RSP_OK, 0x00 = EDBG_RSP_FAIL). -/
def dap_edbg_cmd (st : EdbgState) (sub : Nat) (payload : List Nat) :
    EdbgState × Bool × Nat :=
  let sub := sub % 256
  let endf := sub % 16
  let frag := sub / 16
  let ofst := ((frag + 65535) * 60) % 65536
  if 10 ≤ endf then
    (st, false, 0x00)
  else
    let chunks := ((if frag = 1 then 0 else st.chunks) + 1) % 256
    let buf := bcopy st.buf ofst payload
    if endf = frag then
      let plength := ofst + payload.length
      if chunks = endf then
        (⟨buf, chunks, plength, 0⟩, true, 0x01)
      else
        ({st with buf := buf, chunks := chunks, plength := plength}, false, 0x00)
    else
      ({st with buf := buf, chunks := chunks}, false, 0x01)

/-- Feed a sequence of inbound fragments through `dap_edbg_cmd`: the
fragments carry 1-based indices `i, i+1, ...`, each declares the same
end-fragment count `n`, and their payloads are the elements of `ps`.
Returns the state and result after the last fragment. -/
def runFrags : EdbgState → Nat → Nat → List (List Nat) → EdbgState × Bool × Nat
  | st, _, _, [] => (st, false, 0)
  | st, n, i, p :: ps =>
    let r := dap_edbg_cmd st (i * 16 + n) p
    match ps with
    | [] => r
    | q :: qs => runFrags r.1 n (i + 1) (q :: qs)

/-- Model of `JTAG::complete_jtag_transactions` (jtag.cpp).  `raw` is
`packet.rawData`; `L` is the `_length` argument (the response payload
size returned by the scope handler).  In the `in` view of the packet
union `packet.in.token` sits at `rawData[1]`, so the response served
to the host consists of the `_packet_length = L + 6` bytes
`rawData[1] .. rawData[L+6]`.  Returns the updated buffer together
with the new `_packet_length`, `_packet_fragment` and
`_packet_endfrag`. -/
def complete_jtag_transactions (raw : Nat → Nat) (L : Nat) :
    (Nat → Nat) × Nat × Nat × Nat :=
  let plength := L + 6
  let endfrag := (L + 65) / 60
  let raw := bset raw 1 0x0E
  let raw := bset raw plength 0
  (raw, plength, 0, endfrag)

/-- State used while serving an outbound response
(`_packet_fragment`, `_packet_length`, `_packet_endfrag` and the
packet buffer). -/
structure ServeState where
  raw      : Nat → Nat
  plength  : Nat
  fragment : Nat
  endfrag  : Nat

/-- Model of the `_cmd == 0x81` (DAP_EDBG_VENDOR_AVR_RSP) non-empty
branch of `JTAG::dap_command_check` (jtag.cpp): copy 60 bytes from
`&packet.in.token + _packet_fragment * 60` (that is `rawData[1 + 60k]`)
into the report, then advance the fragment counter and decrement the
remaining length (16-bit `size_t` subtraction).  Returns the new
state, the 60 copied bytes, the header byte
`(_packet_fragment << 4) | _packet_endfrag` and the size byte
`EP_MEM.dap_data[3]`. -/
def dap_serve (s : ServeState) : ServeState × List Nat × Nat × Nat :=
  if s.endfrag = 0 then
    (s, [], 0, 0)
  else
    let chunk := (List.range 60).map fun i => s.raw (1 + s.fragment * 60 + i)
    let frag := (s.fragment + 1) % 256
    let sub := (frag * 16 + s.endfrag) % 256
    let size := if frag = s.endfrag then s.plength else 60
    ({s with fragment := frag, plength := (s.plength + 65536 - 60) % 65536},
     chunk, sub, size)

/-- Serve `k` outbound fragments in a row and concatenate, from each
report, the first `size` bytes (the bytes the host keeps, per the size
byte `EP_MEM.dap_data[3]`). -/
def serveAll : Nat → ServeState → List Nat
  | 0, _ => []
  | k + 1, s =>
    let r := dap_serve s
    r.2.1.take r.2.2.2 ++ serveAll k r.1

end JTAG

/-- Wire oracle: for the k-th frame received on the USART, the pair of
values read from `USART0_RXDATAH` and `USART0_RXDATAL`. -/
def Wire : Type := Nat → Nat × Nat

/-- The UPDI receive-side registers: the running index of the next
frame to be consumed, and the `RXSTAT`/`RXDATA` general-purpose
registers. -/
structure URegs where
  idx    : Nat
  rxstat : Nat
  rxdata : Nat
deriving DecidableEq

namespace UPDI

/-- Model of `UPDI::recv` (updi.cpp): wait for a frame, store
`USART0_RXDATAH ^ 0x80` in `RXSTAT` and `USART0_RXDATAL` in `RXDATA`,
and succeed iff `RXSTAT == 0`, i.e. iff no frame/parity/overrun error
flag was raised. -/
def recv (w : Wire) (s : URegs) : URegs × Bool :=
  let h := (w s.idx).1 % 256
  let l := (w s.idx).2 % 256
  let s : URegs := ⟨s.idx + 1, h ^^^ 0x80, l⟩
  (s, s.rxstat = 0)

/-- Model of `UPDI::send` (updi.cpp): transmit `b`, then receive the
echo; succeed iff the echo was received without error and equals the
byte sent. -/
def send (w : Wire) (s : URegs) (b : Nat) : URegs × Bool :=
  let r := recv w s
  (r.1, r.2 && decide (r.1.rxdata = b % 256))

/-- Model of `UPDI::send_bytes` (updi.cpp): send the bytes in order,
returning failure at the first byte whose echo fails, without sending
the rest. -/
def send_bytes (w : Wire) (s : URegs) : List Nat → URegs × Bool
  | [] => (s, true)
  | b :: t =>
    let r := send w s b
    if r.2 then send_bytes w r.1 t else (r.1, false)

/-- Model of `UPDI::recv_bytes` (updi.cpp) restricted to what later
definitions need: receive `n` bytes, failing at the first frame
error. -/
def recv_count : Wire → URegs → Nat → URegs × Bool
  | _, s, 0 => (s, true)
  | w, s, n + 1 =>
    let r := recv w s
    if r.2 then recv_count w r.1 n else (r.1, false)

/-- Model of `UPDI::is_ack` (updi.cpp). -/
def is_ack (w : Wire) (s : URegs) : URegs × Bool :=
  let r := recv w s
  (r.1, r.2 && decide (r.1.rxdata = 0x40))

/-- Short-circuit sequencing of wire operations, mirroring the C `&&`
chains: run `f` only when the first operation succeeded. -/
def seqAnd (r : URegs × Bool) (f : URegs → URegs × Bool) : URegs × Bool :=
  if r.2 then f r.1 else (r.1, false)

/-- The five bytes of `_set_ptr24` actually sent by the block
operations (`ST PTR ADDR3` plus a 24-bit little-endian address). -/
def set_ptr24_bytes (addr : Nat) : List Nat :=
  [0x55, 0x6A, addr % 256, addr / 256 % 256, addr / 65536 % 256]

/-- The five bytes of `_set_repeat` (`REPEAT cnt` plus the one-byte
`LD/ST PTR++` opcode patched into `_set_repeat[4]`). -/
def set_repeat_bytes (cnt op : Nat) : List Nat :=
  [0x55, 0xA0, cnt % 256, 0x55, op]

/-- Model of `UPDI::set_rsd` (updi.cpp): `0x08 + UPDI_CTRLAV` with
`UPDI_CTRLAV = 0x10 + UPDI_GETVAL = 0x16`. -/
def set_rsd (w : Wire) (s : URegs) : URegs × Bool :=
  send_bytes w s [0x55, 0xC2, 0x1E]

/-- Model of `UPDI::clear_rsd` (updi.cpp). -/
def clear_rsd (w : Wire) (s : URegs) : URegs × Bool :=
  send_bytes w s [0x55, 0xC2, 0x16]

/-- Model of `UPDI::send_byte` (updi.cpp): `STS ADDR3 DATA1` followed
by ACK, the data byte, and a second ACK, each stage aborting the chain
on failure. -/
def send_byte (w : Wire) (s : URegs) (addr data : Nat) : URegs × Bool :=
  seqAnd (send_bytes w s [0x55, 0x48, addr % 256, addr / 256 % 256, addr / 65536 % 256])
    fun s => seqAnd (is_ack w s)
      fun s => seqAnd (send w s data)
        fun s => is_ack w s

/-- Model of `UPDI::send_bytes_block` (updi.cpp): pointer setup, ACK,
RSD on, repeat setup, data stream, RSD off — each stage aborting the
chain on the first echo failure. -/
def send_bytes_block (w : Wire) (s : URegs) (addr : Nat) (data : List Nat) :
    URegs × Bool :=
  if data.length = 1 then send_byte w s addr (data.getD 0 0)
  else
    seqAnd (send_bytes w s (set_ptr24_bytes addr))
      fun s => seqAnd (is_ack w s)
        fun s => seqAnd (set_rsd w s)
          fun s => seqAnd (send_bytes w s (set_repeat_bytes (data.length - 1) 0x64))
            fun s => seqAnd (send_bytes w s data)
              fun s => clear_rsd w s

/-- Model of `UPDI::send_break` (updi.cpp): one `0x00` byte is sent at
a slower baud rate (consuming its echo frame); the function always
reports failure and its result is ignored by the callers modelled
here. -/
def send_break (w : Wire) (s : URegs) : URegs × Bool :=
  ((send w s 0x00).1, false)

/-- Model of `UPDI::key_status` (updi.cpp): `55 87` then a read of the
`ASI_KEY_STATUS` register into `RXDATA`. -/
def key_status (w : Wire) (s : URegs) : URegs × Bool :=
  seqAnd (send_bytes w s [0x55, 0x87]) fun s => recv w s

/-- Model of `UPDI::sys_status` (updi.cpp): `55 8B` then a read of the
`ASI_SYS_STATUS` register into `RXDATA`. -/
def sys_status (w : Wire) (s : URegs) : URegs × Bool :=
  seqAnd (send_bytes w s [0x55, 0x8B]) fun s => recv w s

/-- Model of `UPDI::key_wait_set` (updi.cpp): poll `key_status` until
bit `bit` of `RXDATA` is set.  The polling result itself is ignored by
the source; `none` models the loop still spinning when `fuel` runs out
(in the firmware this is interrupted by the timeout escape). -/
def key_wait_set (w : Wire) (bit : Nat) : Nat → URegs → Option URegs
  | 0, _ => none
  | fuel + 1, s =>
    let r := key_status w s
    if r.1.rxdata.testBit bit then some r.1 else key_wait_set w bit fuel r.1

/-- Model of `UPDI::key_wait_clear` (updi.cpp). -/
def key_wait_clear (w : Wire) (bit : Nat) : Nat → URegs → Option URegs
  | 0, _ => none
  | fuel + 1, s =>
    let r := key_status w s
    if r.1.rxdata.testBit bit then key_wait_clear w bit fuel r.1 else some r.1

/-- Model of `UPDI::sys_reset` (updi.cpp): 9 bytes with `_leave`, else
the first 6. -/
def sys_reset (w : Wire) (s : URegs) (leave : Bool) : URegs × Bool :=
  send_bytes w s
    (if leave then [0x55, 0xC8, 0x59, 0x55, 0xC8, 0x00, 0x55, 0xC3, 0x04]
     else [0x55, 0xC8, 0x59, 0x55, 0xC8, 0x00])

/-- The 10-byte `nvmprog_key` ("NVMProg ") from updi.cpp. -/
def nvmprog_key : List Nat :=
  [0x55, 0xE0, 0x20, 0x67, 0x6F, 0x72, 0x50, 0x4D, 0x56, 0x4E]

/-- Model of `UPDI::set_nvmprog_key` (updi.cpp): send the key, wait
for the NVMPROG bit (bit 4) of the key status, then optionally reset.
`none` models the wait loop still spinning when `fuel` runs out. -/
def set_nvmprog_key (w : Wire) (fuel : Nat) (s : URegs) (reset : Bool) :
    Option (URegs × Bool) :=
  let r := send_bytes w s nvmprog_key
  if r.2 then
    match key_wait_set w 4 fuel r.1 with
    | none => none
    | some s1 => if reset then some (sys_reset w s1 false) else some (s1, true)
  else some (r.1, false)

/-- Model of `UPDI::enter_progmode` (updi.cpp).  `pg` is the `PGCONF`
bit register (bit 0 = PGCONF_UPDI, bit 1 = PGCONF_PROG).  `progInit`
models the `Command_Table.prog_init` callback (its result is discarded
by the source).  Returns the new `PGCONF`, the receive state and the
`size_t` result. -/
def enter_progmode (w : Wire) (progInit : URegs → URegs × Nat) (fuel : Nat)
    (pg : Nat) (s : URegs) : Option (Nat × URegs × Nat) :=
  if pg.testBit 1 then some (pg, s, 1)
  else
    match set_nvmprog_key w fuel s true with
    | none => none
    | some (s1, false) => some (pg, s1, 0)
    | some (s1, true) =>
      match key_wait_clear w 4 fuel s1 with
      | none => none
      | some s2 =>
        let r := sys_status w s2
        if r.2 ∧ ¬ r.1.rxdata.testBit 0 then
          some (pg ||| 2, (progInit r.1).1, 1)
        else some (pg, r.1, 1)

/-- Model of `UPDI::timeout_fallback` (updi.cpp): at the 40 kHz floor
report no further adjustment (0); otherwise lower `_xclk` by 25
(16-bit unsigned subtraction) clamping at 40, re-initialise the USART,
send a break and return the result of `clear_rsd` as 1/0.  Returns the
new `_xclk`, the receive state and the `size_t` result. -/
def timeout_fallback (w : Wire) (xclk : Nat) (s : URegs) : Nat × URegs × Nat :=
  if xclk = 40 then (xclk, s, 0)
  else
    let xclk := (xclk + 65536 - 25) % 65536
    let xclk := if xclk < 40 then 40 else xclk
    let s := (send_break w s).1
    let r := clear_rsd w s
    (xclk, r.1, if r.2 then 1 else 0)

/-- Model of `UPDI::read_dummy` (updi.cpp): for a signature read
(`MTYPE_SIGN_JTAG`) on a device whose SIB has been read, synthesize a
dummy signature from the SIB; otherwise fill `_wLength` bytes with
0xFF.  Returns the updated `packet.in.data` and `_wLength + 1` (16-bit
`size_t` arithmetic). -/
def read_dummy (data sib : Nat → Nat) (mtype len : Nat) : (Nat → Nat) × Nat :=
  if mtype = 0xB4 ∧ sib 0 ≠ 0 then
    (bset (bset (bset data 0 0x1E) 1 (if sib 0 = 0x20 then 0x41 else sib 0)) 2 (sib 10),
     (len + 1) % 65536)
  else
    ((fun i => if i < len % 65536 then 0xFF else data i), (len + 1) % 65536)

end UPDI

namespace Timeout

/-- Model of `Timeout::command` (timeout.cpp) with the fallback fixed
to `UPDI::timeout_fallback`, which is how the UPDI scope invokes it.
`op k` is the outcome of the k-th attempt of `(*func_p)()`: `some r`
when the operation returns `r` before the deadline, `none` when the
hardware countdown fires and the `longjmp` escape unwinds the attempt.
`useFb` is whether a fallback was supplied (`fail_p` non-null).  The
`fuel` bounds the number of loop iterations modelled; `none` means the
loop was still running.  On termination returns the `size_t` result,
the number of fallback invocations, the final `_xclk` and the receive
state. -/
def command (w : Wire) (op : Nat → Option Nat) (useFb : Bool) :
    Nat → Nat → Nat → Nat → URegs → Option (Nat × Nat × Nat × URegs)
  | 0, _, _, _, _ => none
  | fuel + 1, k, calls, xclk, s =>
    match op k with
    | some r => some (r, calls, xclk, s)
    | none =>
      if useFb then
        let fb := UPDI.timeout_fallback w xclk s
        if fb.2.2 = 0 then some (0, calls + 1, fb.1, fb.2.1)
        else command w op useFb fuel (k + 1) (calls + 1) fb.1 fb.2.1
      else some (0, calls, xclk, s)

end Timeout

namespace TPI

/-- Model of `TPI::recv` (tpi.cpp).  The source polls `USART0_RXDATAH`
until a frame is complete, stores the data, XORs the status with 0x80
and succeeds iff the result is zero; on a completed frame this is the
same status check as `UPDI::recv`. -/
def recv (w : Wire) (s : URegs) : URegs × Bool :=
  let h := (w s.idx).1 % 256
  let l := (w s.idx).2 % 256
  let s : URegs := ⟨s.idx + 1, h ^^^ 0x80, l⟩
  (s, s.rxstat = 0)

/-- Model of `TPI::send` (tpi.cpp): transmit and check the echo.
(`start_txd`/`stop_txd` only drive the direction pin in builds that
define `PIN_PGM_XDIR`, which the modelled configuration does not.) -/
def send (w : Wire) (s : URegs) (b : Nat) : URegs × Bool :=
  let r := recv w s
  (r.1, r.2 && decide (r.1.rxdata = b % 256))

/-- Short-circuit sequencing for TPI chains. -/
def tseq (r : URegs × Bool) (f : URegs → URegs × Bool) : URegs × Bool :=
  if r.2 then f r.1 else (r.1, false)

/-- Model of `TPI::set_sstcs` (tpi.cpp). -/
def set_sstcs (w : Wire) (s : URegs) (addr data : Nat) : URegs × Bool :=
  tseq (send w s (0xC0 ||| addr)) fun s => send w s data

/-- Model of `TPI::get_sldcs` (tpi.cpp). -/
def get_sldcs (w : Wire) (s : URegs) (addr : Nat) : URegs × Bool :=
  tseq (send w s (0x80 ||| addr)) fun s => recv w s

/-- Model of `TPI::set_sstpr` (tpi.cpp): load the 16-bit pointer. -/
def set_sstpr (w : Wire) (s : URegs) (addr : Nat) : URegs × Bool :=
  tseq (send w s 0x68) fun s =>
    tseq (send w s (addr % 256)) fun s =>
      tseq (send w s 0x69) fun s => send w s (addr / 256 % 256)

/-- Model of `TPI::get_sld` (tpi.cpp). -/
def get_sld (w : Wire) (s : URegs) : URegs × Bool :=
  tseq (send w s 0x24) fun s => recv w s

/-- The 9-byte TPI NVM program enable key (tpi.cpp `nvmprog_key`). -/
def tpi_key : List Nat := [0xE0, 0xFF, 0x88, 0xD8, 0xCD, 0x45, 0xAB, 0x89, 0x12]

/-- The device-signature to chunk-size lookup performed once by
`TPI::connect` (tpi.cpp): ATtiny40 (0x920E) writes 8-byte chunks,
ATtiny20 (0x910F) 4-byte chunks, everything else 2-byte chunks. -/
def tpi_chunks_of (sig : Nat) : Nat :=
  if sig = 0x920E then 8 else if sig = 0x910F then 4 else 2

/-- The TPIIR identification loop of `TPI::connect`:
`while (!(get_sldcs(0x0F) && RXDATA == 0x80));`. -/
def tpiir_wait (w : Wire) : Nat → URegs → Option URegs
  | 0, _ => none
  | fuel + 1, s =>
    let r := get_sldcs w s 0x0F
    if r.2 ∧ r.1.rxdata = 0x80 then some r.1 else tpiir_wait w fuel r.1

/-- The inner 8-attempt loop of `TPI::connect` polling `TPISR`
(`get_sldcs(0x00)`) for the NVMEN bit pattern 0x02.  Returns the state
and whether the pattern was observed. -/
def key_attempts (w : Wire) : Nat → URegs → URegs × Bool
  | 0, s => (s, false)
  | n + 1, s =>
    let r := get_sldcs w s 0x00
    if r.2 ∧ r.1.rxdata = 0x02 then (r.1, true) else key_attempts w n r.1

/-- The device-signature read of `TPI::connect`: point at 0x3FC1 and
read two bytes (high byte first); a failed read leaves the
corresponding byte of `_signature` at zero. -/
def read_signature (w : Wire) (s : URegs) : URegs × Nat :=
  let r := set_sstpr w s 0x3FC1
  if r.2 then
    let g1 := get_sld w r.1
    if g1.2 then
      let hi := g1.1.rxdata
      let g2 := get_sld w g1.1
      if g2.2 then (g2.1, hi * 256 + g2.1.rxdata) else (g2.1, hi * 256)
    else (g1.1, 0)
  else (r.1, 0)

/-- The per-byte key transmission of `TPI::connect`
(`for i ... if (!send(nvmprog_key[i])) return 0;`): send the bytes in
order, aborting at the first echo failure. -/
def send_list (w : Wire) (s : URegs) : List Nat → URegs × Bool
  | [] => (s, true)
  | b :: t =>
    let r := send w s b
    if r.2 then send_list w r.1 t else (r.1, false)

/-- The outer `do { ... } while (true)` key loop of `TPI::connect`:
send the NVM key (aborting with result 0 on an echo failure), make 8
status attempts, and on success read the signature and derive
`_tpi_chunks`.  Returns `(state, chunks, success)`; `none` models the
loop still spinning when `fuel` runs out. -/
def key_loop (w : Wire) : Nat → URegs → Option (URegs × Nat × Bool)
  | 0, _ => none
  | fuel + 1, s =>
    let r := send_list w s tpi_key
    if r.2 then
      let a := key_attempts w 8 r.1
      if a.2 then
        let rs := read_signature w a.1
        some (rs.1, tpi_chunks_of rs.2, true)
      else key_loop w fuel a.1
    else some (r.1, 0, false)

/-- Model of `TPI::connect` (tpi.cpp) at the session level.  `hvEnter`
models the high-voltage entry condition
(`(_packet_length > 6 && packet.out.tpi.bType) || GPCONF_HLD`);
`hvenBit` is the (configuration-defined) position of `PGCONF_HVEN`.
Returns `(PGCONF, result, receive state, _tpi_chunks)`; `none` models
one of the internal polling loops still spinning (cut short in the
firmware only by the timeout escape). -/
def connect (w : Wire) (fuel : Nat) (hvEnter : Bool) (hvenBit : Nat) (s : URegs) :
    Option (Nat × Nat × URegs × Nat) :=
  let pg := 0
  let pg := if hvEnter then pg ||| 2 ^ hvenBit else pg
  let r := set_sstcs w s 0x02 0x05
  if r.2 then
    match tpiir_wait w fuel r.1 with
    | none => none
    | some s1 =>
      let pg := pg ||| 1
      match key_loop w fuel s1 with
      | none => none
      | some (s2, ch, true) => some (pg ||| 2, 1, s2, ch)
      | some (s2, _, false) => some (pg, 0, s2, 0)
  else some (pg, 0, r.1, 0)

/-- The inbound-data head-alignment loop of `TPI::write_memory`
(tpi.cpp): while the start address is not chunk aligned, move the
address and the data pointer `p` down one byte and write the 0xFF fill
into the buffer position just below the data
(`*--_p = 0xFF`).  `mem` is the MCU data space as a flat byte map. -/
def padHead : Nat → (Nat → Nat) → Nat → Nat → Nat → Nat → (Nat → Nat) × Nat × Nat × Nat
  | 0, mem, addr, len, p, _ => (mem, addr, len, p)
  | fuel + 1, mem, addr, len, p, chunks =>
    if addr &&& (chunks - 1) ≠ 0 then
      padHead fuel (bset mem (p - 1) 0xFF) (addr - 1) (len + 1) (p - 1) chunks
    else (mem, addr, len, p)

/-- The length tail-alignment loop of `TPI::write_memory` (tpi.cpp):
`while (_wLength & (_tpi_chunks - 1)) *((uint8_t*)(_dwAddr + _wLength++)) = 0xFF;`
— note that the fill byte is stored through the pointer obtained by
casting the 16-bit sum of the target address and the length, i.e. at
an absolute data-space address, not into the streamed data buffer. -/
def padTail : Nat → (Nat → Nat) → Nat → Nat → Nat → (Nat → Nat) × Nat
  | 0, mem, _, len, _ => (mem, len)
  | fuel + 1, mem, addr, len, chunks =>
    if len &&& (chunks - 1) ≠ 0 then
      padTail fuel (bset mem ((addr + len) % 65536) 0xFF) addr (len + 1) chunks
    else (mem, len)

/-- The address/length fix-up phase of `TPI::write_memory` (tpi.cpp).
`base` is the data-space address of
`packet.out.tpi.write.memData[0]`, where the data pointer `_p` starts.
Returns the memory after both loops, the adjusted address, the
adjusted length, and the adjusted data pointer; the bytes later
streamed to the target are `mem' (p' + i)` for `i < len'`. -/
def write_fix (mem : Nat → Nat) (base addr len chunks : Nat) :
    (Nat → Nat) × Nat × Nat × Nat :=
  let h := padHead chunks mem addr len base chunks
  let t := padTail chunks h.1 h.2.1 h.2.2.1 chunks
  (t.1, h.2.1, t.2, h.2.2.2)

/-- The NVM operation dispatched by a TPI-scope command. -/
inductive TpiOp where
  | conn : TpiOp
  | leave : TpiOp
  | read : TpiOp
  | erase : TpiOp
  | write : TpiOp
deriving DecidableEq

/-- Model of `TPI::jtag_scope_tpi` (tpi.cpp).  `pg` is `PGCONF`,
`vtarget` the stored `_vtarget` millivolt reading, `vdd` the value
`SYS::get_vdd()` would sample now; `rConnect`..`rWrite` are oracle
results of the respective operations run under `Timeout::command`.
Returns the operation dispatched (if any), the `_rspsize` before the
final padding increment, the `XPRG` status byte written to
`packet.in.tpi_res` (0x00 = XPRG_ERR_OK, 0x01 = XPRG_ERR_FAILED) and
the new `_vtarget`. -/
def jtag_scope_tpi (cmd pg vtarget vdd rConnect rDisc rRead rErase rWrite : Nat) :
    Option TpiOp × Nat × Nat × Nat :=
  let step : Option TpiOp × Nat × Nat :=
    if cmd = 0x01 then (some .conn, rConnect, vdd)
    else if cmd = 0x02 then
      (if pg.testBit 0 then some .leave else none,
       if pg.testBit 0 then rDisc else 1, vtarget)
    else if cmd = 0x07 then (none, 1, vtarget)
    else if cmd = 0x06 then (none, 0, vtarget)
    else if ¬ pg.testBit 0 then (none, 0, vtarget)
    else if cmd = 0x05 then (some .read, rRead, vtarget)
    else if vtarget < 4500 then (none, 0, vtarget)
    else if cmd = 0x03 then (some .erase, rErase, vtarget)
    else if cmd = 0x04 then (some .write, rWrite, vtarget)
    else (none, 0, vtarget)
  (step.1, step.2.1, if step.2.1 ≠ 0 then 0x00 else 0x01, step.2.2)

end TPI

namespace SYS

/-- The page mask computed by `SYS::is_boundary_flash_page` (sys.cpp):
`~(((uint16_t)flash_page_size_msb << 8) + flash_page_size - 1)` — the
inner expression is 16-bit `int` arithmetic whose complement is
sign-extended into the 32-bit mask. -/
def flash_page_mask (msb lsb : Nat) : Nat :=
  let psz := (msb % 256) * 256 + lsb % 256
  let inner := (psz + 65535) % 65536
  let notv := 65535 - inner
  if notv < 32768 then notv else notv + 0xFFFF0000

/-- Model of `SYS::is_boundary_flash_page` (sys.cpp): compare the
page-aligned address against `_before_page`, store the new aligned
address into `_before_page`, and report whether it changed. -/
def is_boundary_flash_page (before mask addr : Nat) : Bool × Nat :=
  let after := addr % 2 ^ 32 &&& mask
  (decide (before ≠ after), after)

end SYS

namespace NVM

namespace V4

/-- The erase behaviour of `NVM::V4::write_words_flash` (nvmv4.cpp):
`if (bit_is_clear(PGCONF, PGCONF_ERSE_bp) && SYS::is_boundary_flash_page(addr))
erase_flash_page(addr);` — note the short-circuit: when the chip-erase
flag is set the boundary check (and hence the `_before_page` update)
is skipped entirely.  Returns the number of `erase_flash_page` calls
issued before the write and the new `_before_page`. -/
def write_words_flash (pg before mask addr : Nat) : Nat × Nat :=
  if ¬ pg.testBit 2 then
    let b := SYS.is_boundary_flash_page before mask addr
    (if b.1 then 1 else 0, b.2)
  else (0, before)

/-- The erase behaviour of `NVM::V4::write_bytes_flash` (nvmv4.cpp):
`if (SYS::is_boundary_flash_page(addr)) erase_flash_page(addr);`. -/
def write_bytes_flash (before mask addr : Nat) : Nat × Nat :=
  let b := SYS.is_boundary_flash_page before mask addr
  (if b.1 then 1 else 0, b.2)

end V4

namespace V0

/-- The NVM command sequence of `NVM::V0::write_flash` (nvmv0.cpp): on
a page-boundary crossing it issues a page-buffer clear
(`NVM_CMD_PBC`, 0x04) — not a page erase — and every write then uses
the combined erase-write-page command (`NVM_CMD_ERWP`, 0x03).
Returns (page-buffer clears, standalone page erases, erase-write-page
commands, new `_before_page`). -/
def write_flash (before mask addr : Nat) : Nat × Nat × Nat × Nat :=
  let b := SYS.is_boundary_flash_page before mask addr
  ((if b.1 then 1 else 0), 0, 1, b.2)

end V0

end NVM

namespace UPDI

/-- The session-level state threaded through `UPDI::connect`. -/
structure Sess where
  pgconf : Nat
  before_page : Nat
  xclk : Nat

/-- The fallback-retry loop of `UPDI::connect` (updi.cpp): up to four
attempts of `updi_activate` / `read_sib` under 20 ms deadlines, each
failure lowering `_xclk` by 25 with a floor of 40.  `actRes k` and
`sibRes k` are oracle outcomes of the k-th attempt (`read_sib` sets
the `PGCONF_UPDI` bit when it returns non-zero). -/
def connect_loop (actRes : Nat → Bool) (sibRes : Nat → Nat) :
    Nat → Nat → Sess → Sess × Nat
  | 0, _, st => (st, 0)
  | r + 1, k, st =>
    let hit := actRes k ∧ sibRes k ≠ 0
    if hit then
      ({st with pgconf := st.pgconf ||| 1}, sibRes k)
    else
      let x := (st.xclk + 65536 - 25) % 65536
      let x := if x < 40 then 40 else x
      connect_loop actRes sibRes r (k + 1) {st with xclk := x}

/-- Model of `UPDI::connect` (updi.cpp) at the session level: clear
`PGCONF`, reset `_before_page` to the `-1L` sentinel, optionally run
the high-voltage pulse (setting `PGCONF_HVEN`), then run the retry
loop; on failure with `_jtag_hvctrl` enabled the original `_xclk` is
restored. -/
def connect (actRes : Nat → Bool) (sibRes : Nat → Nat) (hvEnter : Bool)
    (hvenBit hvctrl : Nat) (st : Sess) : Sess × Nat :=
  let st : Sess := {st with pgconf := 0, before_page := 2 ^ 32 - 1}
  let st := if hvEnter then {st with pgconf := st.pgconf ||| 2 ^ hvenBit} else st
  let bak := st.xclk
  let r := connect_loop actRes sibRes 4 0 st
  if r.2 = 0 ∧ hvctrl ≠ 0 then ({r.1 with xclk := bak}, 0) else r

/-- Model of `UPDI::jtag_scope_updi` (updi.cpp).  `pg` is `PGCONF`,
`sib` the `_sib` byte array, `data` the `packet.in.data` area of the
response; `cmd`, `mtype`, `dwAddr`, `len` are the decoded command
fields.  The operations run under `Timeout::command` are modelled by
oracles mapping the current `PGCONF` to the pair (new `PGCONF`,
`size_t` result); `opRead` is the plain result of `read_memory`
(which never touches `PGCONF`).  Returns the 16-bit value written to
`packet.in.res`, the `_rspsize`, the new `PGCONF` and the new
response data. -/
def jtag_scope_updi (pg : Nat) (sib data : Nat → Nat)
    (cmd mtype dwAddr len : Nat)
    (opConnect opDisc opEnter opErase opWrite : Nat → Nat × Nat) (opRead : Nat) :
    Nat × Nat × Nat × (Nat → Nat) :=
  if cmd = 0x10 then
    let r := opConnect pg
    (if r.2 ≠ 0 then 0x84 else 0xA0, r.2, r.1, data)
  else if cmd = 0x11 then
    let r := if pg.testBit 0 then opDisc pg else (pg, 1)
    (if r.2 ≠ 0 then 0x80 else 0xA0, r.2, 0, data)
  else if cmd = 0x15 then
    let r := opEnter pg
    let v := if r.2 ≠ 0 ∨ r.1.testBit 0 then 1 else 0
    (if v ≠ 0 then 0x80 else 0xA0, v, r.1, data)
  else if cmd = 0x16 then
    (0x80, 1, pg, data)
  else if cmd = 0x20 then
    let r := opErase pg
    (if r.2 ≠ 0 then 0x80 else 0xA0, r.2, r.1, data)
  else if ¬ pg.testBit 0 then
    (0xA0, 0, pg, data)
  else if cmd = 0x21 then
    if mtype = 0xD3 then
      let cnt := ((len + 65535) % 65536 &&& 31) + 1
      let rsp := (len % 65536 + 1) % 65536
      let data := bcopy data (dwAddr % 256 &&& 31) ((List.range cnt).map sib)
      (if rsp ≠ 0 then 0x184 else 0xA0, rsp, pg, data)
    else if pg.testBit 1 then
      (if opRead ≠ 0 then 0x184 else 0xA0, opRead, pg, data)
    else
      let r := read_dummy data sib mtype len
      (if r.2 ≠ 0 then 0x184 else 0xA0, r.2, pg, r.1)
  else if cmd = 0x23 then
    let r := opWrite pg
    (if r.2 ≠ 0 then 0x80 else 0xA0, r.2, r.1, data)
  else
    (0xA0, 0, pg, data)

end UPDI

namespace JTAG

/-- Model of `JTAG::jtag_scope_general` (jtag.cpp) at the
response-code level.  Parameter bytes copied into `packet.in.data`
for `CMD3_GET_PARAMETER` are not modelled (no claim observes them).
Returns the value written to `packet.in.res` (`none` when the command
is not recognized and the field is left untouched), the `_rspsize`,
the new `PGCONF` and the new `_vtarget`. -/
def jtag_scope_general (pg vtarget vdd cmd len : Nat) :
    Option Nat × Nat × Nat × Nat :=
  if cmd = 0x02 then (some 0x184, len % 256 + 1, pg, vtarget)
  else if cmd = 0x10 then (some 0x80, 0, 0, vdd)
  else if cmd = 0x11 then (some 0x80, 0, pg, vtarget)
  else (none, 0, pg, vtarget)

/-- Model of `JTAG::jtag_scope_edbg` (jtag.cpp) at the response-code
level. -/
def jtag_scope_edbg (cmd len : Nat) : Option Nat × Nat :=
  if cmd = 0x01 then (some 0x80, 0)
  else if cmd = 0x02 then (some 0x184, len % 256 + 1)
  else (none, 0)

/-- Model of `JTAG::jtag_scope_avr_core` (jtag.cpp).  `arch` is
`_jtag_arch`; parameter stores other than `PARM3_ARCH` are not
modelled (no claim observes them), and the PDI branch is compiled out
in the modelled configuration (`CONFIG_PGM_PDI_ENABLE` undefined).
Returns the `packet.in.res` write, the `_rspsize`, the new
`_jtag_arch`, the new `PGCONF` and the new response data. -/
def jtag_scope_avr_core (arch pg : Nat) (sib data : Nat → Nat)
    (cmd sect index wValue mtype dwAddr len rsplen : Nat)
    (opConnect opDisc opEnter opErase opWrite : Nat → Nat × Nat) (opRead : Nat) :
    Option Nat × Nat × Nat × Nat × (Nat → Nat) :=
  if cmd = 0x01 then
    let arch := if sect = 0 ∧ index = 0 then wValue % 256 else arch
    (some 0x80, 0, arch, pg, data)
  else if cmd = 0x02 then
    (some 0x184, rsplen % 256 + 1, arch, pg, data)
  else if arch = 0x05 then
    let u := UPDI.jtag_scope_updi pg sib data cmd mtype dwAddr len
      opConnect opDisc opEnter opErase opWrite opRead
    (some u.1, u.2.1, arch, u.2.2.1, u.2.2.2)
  else
    (some 0xA0, 0, arch, pg, data)

/-- Model of `JTAG::jtag_scope_branch` (jtag.cpp) composed with
`complete_jtag_transactions`, at the level of the packet buffer.  The
scope selector is `rawData[4]` and the command is `rawData[5]`; in the
response view `packet.in.res` overlays `rawData[5..6]` (`tpi_cmd` /
`tpi_res` for the TPI scope) and `packet.in.data[i]` is
`rawData[7+i]`.  Handlers that do not write a response code leave
those bytes as they arrived.  Returns the final packet buffer (after
`complete_jtag_transactions` wrote the token and the terminating zero
byte at `rawData[_packet_length]`), the `_rspsize`, and the new
`(_jtag_arch, PGCONF, _vtarget)`. -/
def jtag_scope_branch (raw : Nat → Nat) (arch pg vtarget vdd : Nat)
    (sib : Nat → Nat)
    (opConnect opDisc opEnter opErase opWrite : Nat → Nat × Nat) (opRead : Nat)
    (tConnect tDisc tRead tErase tWrite : Nat) :
    (Nat → Nat) × Nat × Nat × Nat × Nat :=
  let scope := raw 4
  let cmd := raw 5
  let dataIn : Nat → Nat := fun i => raw (7 + i)
  let sect := raw 7
  let index := raw 8
  let rsplen := raw 9
  let wValue := raw 10 + 256 * (raw 11)
  let mtype := raw 7
  let dwAddr := raw 8 + 256 * (raw 9) + 65536 * (raw 10) + 16777216 * (raw 11)
  let dwLen := raw 12 + 256 * (raw 13)
  let h : Option Nat × Option Nat × Nat × Nat × Nat × Nat × (Nat → Nat) :=
    -- (res write, tpi_res write, rspsize, arch', PGCONF', vtarget', data')
    if scope = 0x01 then
      let g := jtag_scope_general pg vtarget vdd cmd rsplen
      (g.1, none, g.2.1, arch, g.2.2.1, g.2.2.2, dataIn)
    else if scope = 0x12 then
      let a := jtag_scope_avr_core arch pg sib dataIn cmd sect index wValue
        mtype dwAddr dwLen rsplen opConnect opDisc opEnter opErase opWrite opRead
      (a.1, none, a.2.1, a.2.2.1, a.2.2.2.1, vtarget, a.2.2.2.2)
    else if scope = 0x14 then
      let t := TPI.jtag_scope_tpi cmd pg vtarget vdd tConnect tDisc tRead tErase tWrite
      (none, some t.2.2.1, t.2.1 + 1, arch, pg, t.2.2.2, dataIn)
    else if scope = 0x20 then
      let e := jtag_scope_edbg cmd rsplen
      (e.1, none, e.2, arch, pg, vtarget, dataIn)
    else
      (none, none, 0, arch, pg, vtarget, dataIn)
  let rsp := h.2.2.1
  let raw1 : Nat → Nat := fun j =>
    if j = 5 then
      match h.1 with
      | some v => v % 256
      | none => raw 5
    else if j = 6 then
      match h.2.1 with
      | some t => t % 256
      | none =>
        match h.1 with
        | some v => v / 256 % 256
        | none => raw 6
    else if 7 ≤ j then h.2.2.2.2.2.2 (j - 7)
    else raw j
  let c := complete_jtag_transactions raw1 rsp
  (c.1, rsp, h.2.2.2.1, h.2.2.2.2.1, h.2.2.2.2.2.1)

end JTAG

/-- The condition under which one transmitted byte round-trips: the
echo frame carries no error flag (`RXDATAH = 0x80`, i.e.
`RXDATAH ^ 0x80 = 0`) and the echoed data equals the byte sent. -/
def echo_ok (w : Wire) (k b : Nat) : Bool :=
  decide ((w k).1 % 256 = 0x80 ∧ (w k).2 % 256 = b % 256)

/-- The position of the first byte of `l` whose echo fails when
transmission starts at wire frame `k` (`none` when every byte
echoes). -/
def firstBad (w : Wire) : Nat → List Nat → Option Nat
  | _, [] => none
  | k, b :: t =>
    if echo_ok w k b then (firstBad w (k + 1) t).map (· + 1) else some 0

/-- The concrete wire trace used to exercise `UPDI::enter_progmode`
against a state without an established link: every byte echoes
cleanly, the key status poll reports NVMPROG (bit 4) set and then
cleared, and the system status poll reports LOCKSTATUS (bit 0)
clear. -/
def cex_wire : Wire := fun k =>
  (0x80,
   (UPDI.nvmprog_key ++
    [0x55, 0x87, 0x10] ++
    [0x55, 0xC8, 0x59, 0x55, 0xC8, 0x00] ++
    [0x55, 0x87, 0x00] ++
    [0x55, 0x8B, 0x00]).getD k 0)

/-- A concrete wire trace on which `TPI::connect` runs to completion:
clean echoes throughout, the TPIIR byte 0x80, the TPISR pattern 0x02
on the first status attempt, and the ATtiny40 signature 0x920E. -/
def tpi_wire : Wire := fun k =>
  (0x80,
   ([0xC2, 0x05, 0x8F, 0x80] ++
    TPI.tpi_key ++
    [0x80, 0x02] ++
    [0x68, 0xC1, 0x69, 0x3F, 0x24, 0x92, 0x24, 0x0E]).getD k 0)

/-! ## Buffer lemmas -/

theorem bset_same (f : Nat → Nat) (i v : Nat) : bset f i v i = v := by
  simp [bset]

theorem bset_other (f : Nat → Nat) (i v j : Nat) (h : j ≠ i) :
    bset f i v j = f j := by
  simp [bset, h]

theorem bcopy_before (d : List Nat) : ∀ (f : Nat → Nat) (o j : Nat), j < o →
    bcopy f o d j = f j := by
  induction d with
  | nil => intro f o j _; rfl
  | cons b t ih =>
    intro f o j h
    rw [bcopy, ih _ _ _ (by omega), bset_other _ _ _ _ (by omega)]

theorem bcopy_after (d : List Nat) : ∀ (f : Nat → Nat) (o j : Nat),
    o + d.length ≤ j → bcopy f o d j = f j := by
  induction d with
  | nil => intro f o j _; rfl
  | cons b t ih =>
    intro f o j h
    simp only [List.length_cons] at h
    rw [bcopy, ih _ _ _ (by omega), bset_other _ _ _ _ (by omega)]

theorem bcopy_inside (d : List Nat) : ∀ (f : Nat → Nat) (o i : Nat),
    i < d.length → bcopy f o d (o + i) = d.getD i 0 := by
  induction d with
  | nil => intro f o i h; simp at h
  | cons b t ih =>
    intro f o i h
    match i with
    | 0 =>
      rw [bcopy, bcopy_before _ _ _ _ (by omega)]
      simpa using bset_same f o b
    | Nat.succ k =>
      simp only [List.length_cons] at h
      have : o + (k + 1) = (o + 1) + k := by omega
      rw [bcopy, this, ih _ _ _ (by omega)]
      rfl

/-! ## C1: inbound EDBG fragment reassembly -/

theorem dap_edbg_cmd_mid (st : JTAG.EdbgState) (p : List Nat) (i n : Nat)
    (h1 : 1 ≤ i) (hi : i < n) (hn : n ≤ 9) :
    JTAG.dap_edbg_cmd st (i * 16 + n) p =
      ({st with buf := bcopy st.buf ((i - 1) * 60) p,
                chunks := ((if i = 1 then 0 else st.chunks) + 1) % 256}, false, 1) := by
  have hsub : (i * 16 + n) % 256 = i * 16 + n := by omega
  have hendf : (i * 16 + n) % 16 = n := by omega
  have hfrag : (i * 16 + n) / 16 = i := by omega
  have hofst : ((i + 65535) * 60) % 65536 = (i - 1) * 60 := by omega
  simp only [JTAG.dap_edbg_cmd, hsub, hendf, hfrag, hofst]
  rw [if_neg (by omega), if_neg (by omega)]

theorem dap_edbg_cmd_last (st : JTAG.EdbgState) (p : List Nat) (n : Nat)
    (h1 : 1 ≤ n) (hn : n ≤ 9)
    (hch : ((if n = 1 then 0 else st.chunks) + 1) % 256 = n) :
    JTAG.dap_edbg_cmd st (n * 16 + n) p =
      (⟨bcopy st.buf ((n - 1) * 60) p, n, (n - 1) * 60 + p.length, 0⟩, true, 1) := by
  have hsub : (n * 16 + n) % 256 = n * 16 + n := by omega
  have hendf : (n * 16 + n) % 16 = n := by omega
  have hfrag : (n * 16 + n) / 16 = n := by omega
  have hofst : ((n + 65535) * 60) % 65536 = (n - 1) * 60 := by omega
  simp only [JTAG.dap_edbg_cmd, hsub, hendf, hfrag, hofst, hch]
  rw [if_neg (by omega)]
  simp

theorem runFrags_build (n : Nat) (hn9 : n ≤ 9) :
    ∀ (qs : List (List Nat)) (st : JTAG.EdbgState) (m : Nat),
    qs ≠ [] → m + qs.length = n → (m = 0 ∨ st.chunks = m) →
    (∀ i, i + 1 < qs.length → (qs.getD i []).length = 60) →
    (JTAG.runFrags st n (m + 1) qs).2.1 = true ∧
    (JTAG.runFrags st n (m + 1) qs).2.2 = 1 ∧
    (∀ p, p < 60 * m → (JTAG.runFrags st n (m + 1) qs).1.buf p = st.buf p) ∧
    (∀ k j, k < qs.length → j < (qs.getD k []).length →
       (JTAG.runFrags st n (m + 1) qs).1.buf (60 * (m + k) + j) =
         (qs.getD k []).getD j 0) := by
  intro qs
  induction qs with
  | nil => intro st m h; exact absurd rfl h
  | cons q tail ih =>
    intro st m _ hlen hch h60
    match tail with
    | [] =>
      -- the final fragment: its index m+1 equals the declared count n
      have hmn : m + 1 = n := by simpa using hlen
      subst hmn
      have hchv : ((if m + 1 = 1 then 0 else st.chunks) + 1) % 256 = m + 1 := by
        by_cases hm0 : m = 0
        · subst hm0; simp
        · rw [if_neg (by omega)]
          rcases hch with h0 | hsc
          · exact absurd h0 hm0
          · rw [hsc]; omega
      have hstep := dap_edbg_cmd_last st q (m + 1) (by omega) hn9 hchv
      have hrun : JTAG.runFrags st (m + 1) (m + 1) [q] =
          JTAG.dap_edbg_cmd st ((m + 1) * 16 + (m + 1)) q := rfl
      rw [hrun, hstep]
      refine ⟨rfl, rfl, ?_, ?_⟩
      · intro p hp
        exact bcopy_before q _ _ _ (by omega)
      · intro k j hk hj
        simp only [List.length_cons, List.length_nil] at hk
        interval_cases k
        have harith : 60 * (m + 0) + j = (m + 1 - 1) * 60 + j := by omega
        simp only [List.getD] at hj ⊢
        rw [harith]
        exact bcopy_inside q _ _ _ (by simpa using hj)
    | q2 :: tail2 =>
      -- a middle fragment: index m+1 is strictly below the declared count n
      have hlen2 : m + (tail2.length + 2) = n := by simpa using hlen
      have hmid : m + 1 < n := by omega
      have hstep := dap_edbg_cmd_mid st q (m + 1) n (by omega) hmid hn9
      have hrun : JTAG.runFrags st n (m + 1) (q :: q2 :: tail2) =
          JTAG.runFrags (JTAG.dap_edbg_cmd st ((m + 1) * 16 + n) q).1 n
            (m + 1 + 1) (q2 :: tail2) := rfl
      set st1 : JTAG.EdbgState :=
        {st with buf := bcopy st.buf ((m + 1 - 1) * 60) q,
                 chunks := ((if m + 1 = 1 then 0 else st.chunks) + 1) % 256} with hst1
      have hchv : st1.chunks = m + 1 := by
        by_cases hm0 : m = 0
        · subst hm0; simp [hst1]
        · simp only [hst1]
          rw [if_neg (by omega)]
          rcases hch with h0 | hsc
          · exact absurd h0 hm0
          · rw [hsc]; omega
      have hq60 : q.length = 60 := by
        have := h60 0 (by simp)
        simpa using this
      have ihr := ih st1 (m + 1) (by simp)
        (by simpa using (by omega : m + 1 + (tail2.length + 1) = n))
        (Or.inr hchv)
        (by intro i hi
            have := h60 (i + 1) (by simp only [List.length_cons] at hi ⊢; omega)
            simpa using this)
      rw [hrun, hstep]
      obtain ⟨ih1, ih2, ihpres, ihdata⟩ := ihr
      refine ⟨ih1, ih2, ?_, ?_⟩
      · intro p hp
        rw [ihpres p (by omega)]
        simp only [hst1]
        exact bcopy_before q _ _ _ (by omega)
      · intro k j hk hj
        match k with
        | 0 =>
          have hj60 : j < 60 := by
            simp only [List.getD] at hj
            rw [← hq60]
            simpa using hj
          rw [ihpres (60 * (m + 0) + j) (by omega)]
          simp only [hst1]
          have harith : 60 * (m + 0) + j = (m + 1 - 1) * 60 + j := by omega
          rw [harith]
          have := bcopy_inside q st.buf ((m + 1 - 1) * 60) j (by omega)
          simp only [List.getD] at hj ⊢
          exact this
        | Nat.succ k2 =>
          have hk2 : k2 < (q2 :: tail2).length := by
            simp only [List.length_cons] at hk ⊢; omega
          have hj2 : j < ((q2 :: tail2).getD k2 []).length := by
            simpa using hj
          have hda := ihdata k2 j hk2 hj2
          have harith : 60 * (m + (k2 + 1)) + j = 60 * (m + 1 + k2) + j := by omega
          rw [harith, hda]
          rfl

/-- C1.  Transport reassembly (`JTAG::dap_command_check`, command
0x80): (1) an inbound sequence of fragments 1..n, each declaring
end-fragment count n ≤ 9 and carrying 60-byte payloads except
possibly the last, is accepted (`_result = true`, response
EDBG_RSP_OK) and each fragment's payload lands in the logical command
buffer at offset `(fragment_index - 1) * 60`; (2) a fragment
declaring an end-fragment count above 9 is answered with
EDBG_RSP_FAIL (0x00) and leaves the state — in particular the logical
buffer — unmodified; (3) the handler reports a complete payload only
on the fragment whose index equals the declared end-fragment count
and only when the fragment counter then equals that count. -/
theorem C1_transport_reassembly :
    (∀ (st : JTAG.EdbgState) (n : Nat) (ps : List (List Nat)),
      1 ≤ n → n ≤ 9 → ps.length = n →
      (∀ i, i + 1 < n → (ps.getD i []).length = 60) →
      (JTAG.runFrags st n 1 ps).2.1 = true ∧
      (∀ k j, k < n → j < (ps.getD k []).length →
        (JTAG.runFrags st n 1 ps).1.buf (60 * k + j) = (ps.getD k []).getD j 0)) ∧
    (∀ (st : JTAG.EdbgState) (sub : Nat) (payload : List Nat),
      10 ≤ sub % 256 % 16 →
      JTAG.dap_edbg_cmd st sub payload = (st, false, 0)) ∧
    (∀ (st : JTAG.EdbgState) (sub : Nat) (payload : List Nat),
      (JTAG.dap_edbg_cmd st sub payload).2.1 = true →
      sub % 256 % 16 = sub % 256 / 16 ∧
      (JTAG.dap_edbg_cmd st sub payload).1.chunks = sub % 256 % 16) := by
  refine ⟨?_, ?_, ?_⟩
  · intro st n ps h1 h9 hlen h60
    have hr := runFrags_build n h9 ps st 0
      (by intro h; subst h; simp at hlen; omega)
      (by omega) (Or.inl rfl)
      (by intro i hi; exact h60 i (by omega))
    refine ⟨hr.1, ?_⟩
    intro k j hk hj
    have := hr.2.2.2 k j (by omega) hj
    simpa using this
  · intro st sub payload h
    simp only [JTAG.dap_edbg_cmd]
    rw [if_pos h]
  · intro st sub payload h
    simp only [JTAG.dap_edbg_cmd] at h ⊢
    by_cases h1 : 10 ≤ sub % 256 % 16
    · rw [if_pos h1] at h; simp at h
    · by_cases h2 : sub % 256 % 16 = sub % 256 / 16
      · by_cases h3 : ((if sub % 256 / 16 = 1 then 0 else st.chunks) + 1) % 256 =
            sub % 256 % 16
        · rw [if_neg h1, if_pos h2, if_pos h3]
          exact ⟨h2, h3⟩
        · rw [if_neg h1, if_pos h2, if_neg h3] at h; simp at h
      · rw [if_neg h1, if_neg h2] at h; simp at h

/-- Witness for C1: a one-fragment sequence is accepted and its
second payload byte lands at buffer offset 1. -/
theorem C1_witness :
    (JTAG.runFrags ⟨fun _ => 0, 0, 0, 0⟩ 1 1 [[0xAB, 0xCD]]).2.1 = true ∧
    (JTAG.runFrags ⟨fun _ => 0, 0, 0, 0⟩ 1 1 [[0xAB, 0xCD]]).1.buf 1 = 0xCD := by
  have h := C1_transport_reassembly.1 ⟨fun _ => 0, 0, 0, 0⟩ 1 [[0xAB, 0xCD]]
    (by omega) (by omega) rfl (by intro i hi; omega)
  refine ⟨h.1, ?_⟩
  have := h.2 0 1 (by omega) (by decide)
  simpa using this

/-! ## C2: outbound response fragmentation -/

theorem serveAll_spec (P ef : Nat) (hP : P ≤ 900)
    (hef1 : 60 * (ef - 1) < P) (hef2 : P ≤ 60 * ef) (hef15 : ef ≤ 15) :
    ∀ (d f : Nat) (raw : Nat → Nat), d = ef - f → f < ef →
    JTAG.serveAll d ⟨raw, P - 60 * f, f, ef⟩ =
      (List.range (P - 60 * f)).map (fun i => raw (1 + f * 60 + i)) := by
  intro d
  induction d with
  | zero => intro f raw hd hf; omega
  | succ d ihd =>
    intro f raw hd hf
    have hef0 : ef ≠ 0 := by omega
    have hfrag : (f + 1) % 256 = f + 1 := by omega
    by_cases hlast : f + 1 = ef
    · -- the last fragment: the size byte carries the remaining length
      have hd0 : d = 0 := by omega
      subst hd0
      have hsize : P - 60 * f ≤ 60 := by omega
      simp only [JTAG.serveAll, JTAG.dap_serve, hfrag]
      rw [if_neg hef0, if_pos hlast]
      simp only [JTAG.serveAll, List.append_nil]
      rw [← List.map_take, List.take_range, Nat.min_eq_left hsize]
    · -- a middle fragment: a full 60-byte chunk is consumed
      have hrem : 60 ≤ P - 60 * f := by
        have h1 : f + 1 ≤ ef - 1 := by omega
        have h2 : 60 * (f + 1) ≤ 60 * (ef - 1) := by
          exact Nat.mul_le_mul_left 60 h1
        omega
      have hlen2 : (P - 60 * f + 65536 - 60) % 65536 = P - 60 * (f + 1) := by
        omega
      simp only [JTAG.serveAll, JTAG.dap_serve, hfrag]
      rw [if_neg hef0, if_neg hlast]
      have ihr := ihd (f + 1) raw (by omega) (by omega)
      simp only [hlen2]
      rw [ihr]
      have htake : ((List.range 60).map fun i => raw (1 + f * 60 + i)).take 60 =
          (List.range 60).map fun i => raw (1 + f * 60 + i) := by
        apply List.take_of_length_le
        simp
      rw [htake]
      have hsplit : P - 60 * f = 60 + (P - 60 * (f + 1)) := by omega
      rw [hsplit, List.range_add, List.map_append, List.map_map]
      refine congrArg₂ (· ++ ·) rfl ?_
      apply List.map_congr_left
      intro i _
      show raw (1 + (f + 1) * 60 + i) = raw (1 + f * 60 + (60 + i))
      exact congrArg raw (by omega)

/-- C2.  Outbound response fragmentation
(`JTAG::complete_jtag_transactions` and the 0x81 serving branch of
`JTAG::dap_command_check`): for a response of payload length `L` (so
`_packet_length = L + 6` bytes are served, and `L + 6 ≤ 900` fits the
15-fragment transport), the computed end-fragment count is
`(L + 65) / 60`, which is the ceiling of `(L + 6) / 60`, lies in
1..15, and serving exactly that many fragments — 60 bytes each, the
last report carrying the remaining length in its size byte —
reproduces the `L + 6` response bytes `rawData[1..L+6]` losslessly. -/
theorem C2_outbound_fragmentation (raw : Nat → Nat) (L : Nat) (hL : L ≤ 894) :
    (JTAG.complete_jtag_transactions raw L).2.2.2 = (L + 65) / 60 ∧
    (JTAG.complete_jtag_transactions raw L).2.1 = L + 6 ∧
    (JTAG.complete_jtag_transactions raw L).2.2.1 = 0 ∧
    60 * ((L + 65) / 60 - 1) < L + 6 ∧ L + 6 ≤ 60 * ((L + 65) / 60) ∧
    1 ≤ (L + 65) / 60 ∧ (L + 65) / 60 ≤ 15 ∧
    JTAG.serveAll ((L + 65) / 60)
      ⟨(JTAG.complete_jtag_transactions raw L).1, L + 6, 0, (L + 65) / 60⟩ =
      (List.range (L + 6)).map
        (fun i => (JTAG.complete_jtag_transactions raw L).1 (1 + i)) := by
  refine ⟨rfl, rfl, rfl, by omega, by omega, by omega, by omega, ?_⟩
  have h := serveAll_spec (L + 6) ((L + 65) / 60) (by omega) (by omega) (by omega)
    (by omega) ((L + 65) / 60) 0 (JTAG.complete_jtag_transactions raw L).1
    (by omega) (by omega)
  simpa using h

/-- Witness for C2: a zero-length payload is served as one fragment
of the six header bytes. -/
theorem C2_witness :
    (JTAG.complete_jtag_transactions (fun _ => 0) 0).2.2.2 = 1 ∧
    JTAG.serveAll 1 ⟨(JTAG.complete_jtag_transactions (fun _ => 0) 0).1, 6, 0, 1⟩ =
      (List.range 6).map
        (fun i => (JTAG.complete_jtag_transactions (fun _ => 0) 0).1 (1 + i)) := by
  have h := C2_outbound_fragmentation (fun _ => 0) 0 (by omega)
  exact ⟨h.1, by simpa using h.2.2.2.2.2.2.2⟩

/-! ## C3: timeout supervisor retry loop -/

theorem timeout_fallback_facts (w : Wire) (s : URegs) (xclk : Nat)
    (h40 : 40 ≤ xclk) (hle : xclk ≤ 65535) :
    40 ≤ (UPDI.timeout_fallback w xclk s).1 ∧
    (UPDI.timeout_fallback w xclk s).1 ≤ 65535 ∧
    (xclk = 40 →
      (UPDI.timeout_fallback w xclk s).1 = 40 ∧
      (UPDI.timeout_fallback w xclk s).2.2 = 0) ∧
    (xclk ≠ 40 →
      (UPDI.timeout_fallback w xclk s).1 = max 40 (xclk - 25) ∧
      (UPDI.timeout_fallback w xclk s).1 < xclk) := by
  by_cases h : xclk = 40
  · subst h
    simp [UPDI.timeout_fallback]
  · have hx1 : (xclk + 65536 - 25) % 65536 = xclk - 25 := by omega
    simp only [UPDI.timeout_fallback, if_neg h, hx1]
    by_cases hlt : xclk - 25 < 40
    · rw [if_pos hlt]
      refine ⟨by omega, by omega, by intro hc; exact absurd hc h, ?_⟩
      intro _
      exact ⟨by omega, by omega⟩
    · rw [if_neg hlt]
      refine ⟨by omega, by omega, by intro hc; exact absurd hc h, ?_⟩
      intro _
      exact ⟨by omega, by omega⟩

theorem timeout_cmd_terminates :
    ∀ (xclk : Nat), 40 ≤ xclk → xclk ≤ 65535 →
    ∀ (w : Wire) (s : URegs) (k calls fuel : Nat), xclk - 39 ≤ fuel →
    ∃ n x2 s2,
      Timeout.command w (fun _ => none) true fuel k calls xclk s =
        some (0, n, x2, s2) ∧ calls < n ∧ 40 ≤ x2 := by
  intro xclk
  induction xclk using Nat.strong_induction_on with
  | _ xclk ih =>
    intro h40 hle w s k calls fuel hfuel
    match fuel with
    | 0 => omega
    | f + 1 =>
      have hfb := timeout_fallback_facts w s xclk h40 hle
      by_cases hx : xclk = 40
      · refine ⟨calls + 1, (UPDI.timeout_fallback w xclk s).1,
          (UPDI.timeout_fallback w xclk s).2.1, ?_, by omega, by omega⟩
        simp only [Timeout.command]
        rw [if_pos ((hfb.2.2.1 hx).2)]
        simp
      · have hmax := hfb.2.2.2 hx
        by_cases hr : (UPDI.timeout_fallback w xclk s).2.2 = 0
        · refine ⟨calls + 1, (UPDI.timeout_fallback w xclk s).1,
            (UPDI.timeout_fallback w xclk s).2.1, ?_, by omega, by omega⟩
          simp only [Timeout.command]
          rw [if_pos hr]
          simp
        · have hrec := ih (UPDI.timeout_fallback w xclk s).1 (by omega) (by omega)
            (by omega) w (UPDI.timeout_fallback w xclk s).2.1 (k + 1) (calls + 1) f
            (by omega)
          obtain ⟨n, x2, s2, heq, hlt, hx2⟩ := hrec
          refine ⟨n, x2, s2, ?_, by omega, hx2⟩
          simp only [Timeout.command]
          rw [if_neg hr]
          exact heq

/-- C3.  `Timeout::command` with an operation that never completes
before its deadline (every attempt unwinds through the timeout
escape, modelled as `op k = none`): each elapsed deadline invokes the
fallback exactly once (the invocation count in the result grows by
one per loop iteration); with the `UPDI::timeout_fallback` fallback
the loop terminates with failure result 0 within the `_xclk` budget,
because the fallback reports no further adjustment (returns 0) at the
40 kHz floor and otherwise lowers `_xclk` by 25 — clamped so it never
goes below 40 — strictly decreasing it; with no fallback supplied the
loop gives up after the first expired deadline without any fallback
invocation. -/
theorem C3_timeout_fallback_terminates :
    (∀ (w : Wire) (s : URegs) (xclk : Nat), 40 ≤ xclk → xclk ≤ 65535 →
      ∃ n x2 s2,
        Timeout.command w (fun _ => none) true (xclk - 39) 0 0 xclk s =
          some (0, n, x2, s2) ∧ 1 ≤ n ∧ 40 ≤ x2) ∧
    (∀ (w : Wire) (s : URegs) (xclk fuel k calls : Nat),
      Timeout.command w (fun _ => none) false (fuel + 1) k calls xclk s =
        some (0, calls, xclk, s)) ∧
    (∀ (w : Wire) (s : URegs),
      (UPDI.timeout_fallback w 40 s).2.2 = 0 ∧
      (UPDI.timeout_fallback w 40 s).1 = 40) ∧
    (∀ (w : Wire) (s : URegs) (xclk : Nat), 41 ≤ xclk → xclk ≤ 65535 →
      (UPDI.timeout_fallback w xclk s).1 = max 40 (xclk - 25) ∧
      40 ≤ (UPDI.timeout_fallback w xclk s).1 ∧
      (UPDI.timeout_fallback w xclk s).1 < xclk) := by
  refine ⟨?_, ?_, ?_, ?_⟩
  · intro w s xclk h40 hle
    obtain ⟨n, x2, s2, heq, hn, hx2⟩ :=
      timeout_cmd_terminates xclk h40 hle w s 0 0 (xclk - 39) (by omega)
    exact ⟨n, x2, s2, heq, by omega, hx2⟩
  · intro w s xclk fuel k calls
    simp [Timeout.command]
  · intro w s
    have h := timeout_fallback_facts w s 40 (by omega) (by omega)
    exact ⟨(h.2.2.1 rfl).2, (h.2.2.1 rfl).1⟩
  · intro w s xclk h41 hle
    have h := timeout_fallback_facts w s xclk (by omega) hle
    exact ⟨(h.2.2.2 (by omega)).1, h.1, (h.2.2.2 (by omega)).2⟩

/-- Witness for C3: starting at the initial 225 kHz UPDI clock with a
wire that answers every fallback resynchronisation, the supervisor
terminates with failure 0 and a clock still at or above the floor. -/
theorem C3_witness :
    ∃ n x2 s2,
      Timeout.command (fun _ => (0x80, 0x55)) (fun _ => none) true
        (225 - 39) 0 0 225 ⟨0, 0, 0⟩ = some (0, n, x2, s2) ∧ 1 ≤ n ∧ 40 ≤ x2 :=
  C3_timeout_fallback_terminates.1 (fun _ => (0x80, 0x55)) ⟨0, 0, 0⟩ 225
    (by omega) (by omega)

/-! ## C4: echo integrity of the UPDI send primitives -/

theorem send_true_iff (w : Wire) (s : URegs) (b : Nat) :
    ((UPDI.send w s b).2 = true ↔ echo_ok w s.idx b = true) ∧
    (UPDI.send w s b).1.idx = s.idx + 1 := by
  refine ⟨?_, rfl⟩
  simp only [UPDI.send, UPDI.recv, echo_ok, Bool.and_eq_true, decide_eq_true_eq]
  constructor
  · rintro ⟨h1, h2⟩
    exact ⟨Nat.xor_eq_zero.mp (by simpa using h1), by simpa using h2⟩
  · rintro ⟨h1, h2⟩
    exact ⟨by simp [h1], by simpa using h2⟩

theorem send_bytes_all_ok (w : Wire) (l : List Nat) : ∀ (s : URegs),
    firstBad w s.idx l = none →
    (UPDI.send_bytes w s l).2 = true ∧
    (UPDI.send_bytes w s l).1.idx = s.idx + l.length := by
  induction l with
  | nil => intro s _; exact ⟨rfl, rfl⟩
  | cons b t ih =>
    intro s hfb
    rw [firstBad] at hfb
    by_cases he : echo_ok w s.idx b = true
    · rw [if_pos he, Option.map_eq_none'] at hfb  -- hmm name check
      have hsend : (UPDI.send w s b).2 = true := (send_true_iff w s b).1.mpr he
      have hidx : (UPDI.send w s b).1.idx = s.idx + 1 := rfl
      have ihr := ih (UPDI.send w s b).1 (by rw [hidx]; exact hfb)
      simp only [UPDI.send_bytes, hsend, if_pos]
      rw [List.length_cons]
      exact ⟨ihr.1, by rw [ihr.2, hidx]; omega⟩
    · rw [if_neg he] at hfb
      exact absurd hfb (by simp)

theorem send_bytes_first_fail (w : Wire) (l : List Nat) : ∀ (s : URegs) (j : Nat),
    firstBad w s.idx l = some j →
    (UPDI.send_bytes w s l).2 = false ∧
    (UPDI.send_bytes w s l).1.idx = s.idx + j + 1 := by
  induction l with
  | nil => intro s j h; exact absurd h (by simp [firstBad])
  | cons b t ih =>
    intro s j hfb
    rw [firstBad] at hfb
    by_cases he : echo_ok w s.idx b = true
    · rw [if_pos he] at hfb
      obtain ⟨j2, hj2, hj⟩ := Option.map_eq_some'.mp hfb
      have hsend : (UPDI.send w s b).2 = true := (send_true_iff w s b).1.mpr he
      have hidx : (UPDI.send w s b).1.idx = s.idx + 1 := rfl
      have ihr := ih (UPDI.send w s b).1 j2 (by rw [hidx]; exact hj2)
      simp only [UPDI.send_bytes, hsend, if_pos]
      exact ⟨ihr.1, by rw [ihr.2, hidx]; omega⟩
    · rw [if_neg he] at hfb
      have hj : j = 0 := by simpa using hfb.symm
      have hsend : (UPDI.send w s b).2 = false := by
        cases hs : (UPDI.send w s b).2 with
        | false => rfl
        | true => exact absurd ((send_true_iff w s b).1.mp hs) (by simp [he])
      simp only [UPDI.send_bytes, hsend]
      subst hj
      exact ⟨by simp, rfl⟩

theorem send_bytes_true_firstBad (w : Wire) (s : URegs) (l : List Nat)
    (h : (UPDI.send_bytes w s l).2 = true) : firstBad w s.idx l = none := by
  cases hfb : firstBad w s.idx l with
  | none => rfl
  | some j =>
    have := send_bytes_first_fail w l s j hfb
    rw [this.1] at h
    exact absurd h (by simp)

/-- C4.  UPDI echo integrity (`UPDI::recv` / `UPDI::send` /
`UPDI::send_bytes` / `UPDI::send_bytes_block`): (1) a single
transmitted byte succeeds exactly when its echo frame arrives without
frame/parity/overrun error and carries the byte sent; (2)
`send_bytes` succeeds exactly when every byte echoes, and on the
first mismatch at position `j` it returns failure immediately, having
consumed only `j + 1` echo frames — the remaining bytes are never
transmitted and nothing is retried; (3) the block operation built on
them (`send_bytes_block`) fails immediately when its pointer-setup
transmission fails, consuming no further frames, and when it succeeds
every byte of the streamed data echoed correctly. -/
theorem C4_echo_integrity :
    (∀ (w : Wire) (s : URegs) (b : Nat),
      (UPDI.send w s b).2 = true ↔
        ((w s.idx).1 % 256 = 0x80 ∧ (w s.idx).2 % 256 = b % 256)) ∧
    (∀ (w : Wire) (s : URegs) (l : List Nat),
      (firstBad w s.idx l = none →
        (UPDI.send_bytes w s l).2 = true ∧
        (UPDI.send_bytes w s l).1.idx = s.idx + l.length) ∧
      (∀ j, firstBad w s.idx l = some j →
        (UPDI.send_bytes w s l).2 = false ∧
        (UPDI.send_bytes w s l).1.idx = s.idx + j + 1)) ∧
    (∀ (w : Wire) (s : URegs) (addr : Nat) (data : List Nat) (j : Nat),
      2 ≤ data.length →
      firstBad w s.idx (UPDI.set_ptr24_bytes addr) = some j →
      (UPDI.send_bytes_block w s addr data).2 = false ∧
      (UPDI.send_bytes_block w s addr data).1.idx = s.idx + j + 1) ∧
    (∀ (w : Wire) (s : URegs) (addr : Nat) (data : List Nat),
      2 ≤ data.length →
      (UPDI.send_bytes_block w s addr data).2 = true →
      firstBad w (s.idx + 14) data = none) := by
  refine ⟨?_, ?_, ?_, ?_⟩
  · intro w s b
    rw [(send_true_iff w s b).1]
    simp [echo_ok]
  · intro w s l
    exact ⟨send_bytes_all_ok w l s, fun j h => send_bytes_first_fail w l s j h⟩
  · intro w s addr data j hlen hfb
    have hfail := send_bytes_first_fail w (UPDI.set_ptr24_bytes addr) s j hfb
    simp only [UPDI.send_bytes_block]
    rw [if_neg (by omega)]
    simp only [UPDI.seqAnd, hfail.1]
    simpa using hfail.2
  · intro w s addr data hlen hok
    simp only [UPDI.send_bytes_block] at hok
    rw [if_neg (by omega)] at hok
    simp only [UPDI.seqAnd] at hok
    by_cases h1 : (UPDI.send_bytes w s (UPDI.set_ptr24_bytes addr)).2 = true
    case neg => rw [if_neg (by simpa using h1)] at hok; exact absurd hok (by simp)
    rw [if_pos h1] at hok
    have e1 : (UPDI.send_bytes w s (UPDI.set_ptr24_bytes addr)).1.idx = s.idx + 5 :=
      (send_bytes_all_ok w _ s (send_bytes_true_firstBad w s _ h1)).2
    set s1 := (UPDI.send_bytes w s (UPDI.set_ptr24_bytes addr)).1 with hs1
    by_cases h2 : (UPDI.is_ack w s1).2 = true
    case neg => rw [if_neg (by simpa using h2)] at hok; exact absurd hok (by simp)
    rw [if_pos h2] at hok
    have e2 : (UPDI.is_ack w s1).1.idx = s1.idx + 1 := rfl
    set s2 := (UPDI.is_ack w s1).1 with hs2
    by_cases h3 : (UPDI.set_rsd w s2).2 = true
    case neg => rw [if_neg (by simpa using h3)] at hok; exact absurd hok (by simp)
    rw [if_pos h3] at hok
    have e3 : (UPDI.set_rsd w s2).1.idx = s2.idx + 3 :=
      (send_bytes_all_ok w _ s2 (send_bytes_true_firstBad w s2 _ h3)).2
    set s3 := (UPDI.set_rsd w s2).1 with hs3
    by_cases h4 : (UPDI.send_bytes w s3 (UPDI.set_repeat_bytes (data.length - 1) 0x64)).2 = true
    case neg => rw [if_neg (by simpa using h4)] at hok; exact absurd hok (by simp)
    rw [if_pos h4] at hok
    have e4 : (UPDI.send_bytes w s3 (UPDI.set_repeat_bytes (data.length - 1) 0x64)).1.idx =
        s3.idx + 5 :=
      (send_bytes_all_ok w _ s3 (send_bytes_true_firstBad w s3 _ h4)).2
    set s4 := (UPDI.send_bytes w s3 (UPDI.set_repeat_bytes (data.length - 1) 0x64)).1 with hs4
    by_cases h5 : (UPDI.send_bytes w s4 data).2 = true
    case neg => rw [if_neg (by simpa using h5)] at hok; exact absurd hok (by simp)
    have hidx : s4.idx = s.idx + 14 := by
      rw [hs4]; rw [e4]; rw [hs3] at *; rw [e3]; rw [hs2] at *; rw [e2]; rw [hs1] at *
      rw [e1]  -- fold the chained index increments
    have := send_bytes_true_firstBad w s4 data h5
    rw [hidx] at this
    exact this

/-- Witness for C4: a two-byte transmission over a wire that echoes
the first byte but corrupts the second fails after consuming exactly
two frames. -/
theorem C4_witness :
    firstBad (fun k => (0x80, if k = 0 then 0x55 else 0x00)) 0 [0x55, 0xC2] = some 1 ∧
    (UPDI.send_bytes (fun k => (0x80, if k = 0 then 0x55 else 0x00)) ⟨0, 0, 0⟩
      [0x55, 0xC2]).2 = false ∧
    (UPDI.send_bytes (fun k => (0x80, if k = 0 then 0x55 else 0x00)) ⟨0, 0, 0⟩
      [0x55, 0xC2]).1.idx = 2 := by
  have h := (C4_echo_integrity.2.1 (fun k => (0x80, if k = 0 then 0x55 else 0x00))
    ⟨0, 0, 0⟩ [0x55, 0xC2]).2 1 (by decide)
  exact ⟨by decide, h.1, h.2⟩

/-! ## C5: the PGCONF PROG-implies-LINK invariant -/

/-- Counterexample to C5 as stated: `UPDI::enter_progmode` does not
check `PGCONF_UPDI`.  Started in the state `PGCONF = 0` (link bit
clear — reachable because the dispatcher routes
`CMD3_ENTER_PROGMODE` without checking the link bit), against a wire
whose frames echo cleanly and report the polled status bits, it sets
`PGCONF_PROG`: the final `PGCONF` is 2, with bit 1 (PROG) set and
bit 0 (UPDI/link) clear. -/
theorem C5_counterexample :
    (UPDI.enter_progmode cex_wire (fun s => (s, 0)) 2 0 ⟨0, 0, 0⟩).map
      (fun x => x.1) = some 2 ∧
    Nat.testBit 2 1 = true ∧ Nat.testBit 2 0 = false ∧
    Nat.testBit 0 0 = false := by
  exact ⟨by decide, by decide, by decide, by decide⟩

/-- C5 as amended.  `TPI::connect` preserves the invariant: in any
state it can return, the programming-mode bit (bit 1 of `PGCONF`)
implies the link bit (bit 0), because it raises the link bit strictly
before the programming bit (`hvenBit`, the configured position of
`PGCONF_HVEN`, is a bit other than UPDI and PROG).
`UPDI::enter_progmode` (and the chip-erase path), however, performs
no link-bit check: with cooperative wire traffic it sets
`PGCONF_PROG` from a state whose `PGCONF_UPDI` is clear, so the
dispatcher's routing of ENTER_PROGMODE and ERASE_MEMORY without a
link-bit check leaves the invariant unenforced there. -/
theorem C5_amended_prog_implies_link :
    (∀ (w : Wire) (fuel : Nat) (hv : Bool) (hvenBit : Nat) (s : URegs)
      (pg r : Nat) (regs : URegs) (ch : Nat),
      hvenBit ≠ 0 → hvenBit ≠ 1 →
      TPI.connect w fuel hv hvenBit s = some (pg, r, regs, ch) →
      pg.testBit 1 = true → pg.testBit 0 = true) ∧
    (UPDI.enter_progmode cex_wire (fun s => (s, 0)) 2 0 ⟨0, 0, 0⟩).map
      (fun x => (x.1, x.2.2)) = some (2, 1) := by
  constructor
  · intro w fuel hv hvenBit s pg r regs ch hb0 hb1 hconn
    have hpg0bit : (if hv then 0 ||| 2 ^ hvenBit else 0 : Nat).testBit 1 = false := by
      cases hv with
      | false => simp
      | true =>
        simp only [if_true, Nat.testBit_or]
        rw [Nat.testBit_two_pow_of_ne hb1]
        simp
    simp only [TPI.connect] at hconn
    split at hconn
    · split at hconn
      · exact absurd hconn (by simp)
      · split at hconn
        · exact absurd hconn (by simp)
        · simp only [Option.some.injEq, Prod.mk.injEq] at hconn
          intro _
          rw [← hconn.1]
          simp [Nat.testBit_or]
        · simp only [Option.some.injEq, Prod.mk.injEq] at hconn
          intro _
          rw [← hconn.1]
          simp [Nat.testBit_or]
    · simp only [Option.some.injEq, Prod.mk.injEq] at hconn
      intro hbit
      rw [← hconn.1] at hbit
      rw [hpg0bit] at hbit
      exact absurd hbit (by simp)
  · decide

/-- Witness for C5 (amended): a complete `TPI::connect` run on a
cooperative wire returns `PGCONF = 3`, and the theorem yields that
its link bit is set. -/
theorem C5_witness :
    TPI.connect tpi_wire 2 false 3 ⟨0, 0, 0⟩ = some (3, 1, ⟨23, 0, 14⟩, 8) ∧
    Nat.testBit 3 0 = true := by
  have hc : TPI.connect tpi_wire 2 false 3 ⟨0, 0, 0⟩ =
      some (3, 1, ⟨23, 0, 14⟩, 8) := by decide
  exact ⟨hc, C5_amended_prog_implies_link.1 tpi_wire 2 false 3 ⟨0, 0, 0⟩ 3 1
    ⟨23, 0, 14⟩ 8 (by decide) (by decide) hc (by decide)⟩

/-! ## C6: page-boundary-driven page erase -/

theorem connect_loop_before_page (actRes : Nat → Bool) (sibRes : Nat → Nat) :
    ∀ (r k : Nat) (st : UPDI.Sess),
    (UPDI.connect_loop actRes sibRes r k st).1.before_page = st.before_page := by
  intro r
  induction r with
  | zero => intro k st; rfl
  | succ r ih =>
    intro k st
    simp only [UPDI.connect_loop]
    split
    · rfl
    · exact ih (k + 1) _

/-- Counterexample to C6 as stated: with the chip-erase-completed
flag `PGCONF_ERSE` (bit 2) set — the state every PROGMEM write is in
after the initial chip erase — `NVM::V4::write_words_flash` performs
no page erase even though the page-aligned target address (page size
512) differs from `_before_page`; the claim demands exactly one. -/
theorem C6_counterexample :
    (NVM.V4.write_words_flash 4 0 0xFFFFFE00 0x800200).1 = 0 ∧
    (0 : Nat) ≠ 0x800200 % 2 ^ 32 &&& 0xFFFFFE00 ∧
    Nat.testBit 4 2 = true := by
  exact ⟨by decide, by decide, by decide⟩

/-- C6 as amended.  For NVM variant V4, the byte-flash path
(`write_bytes_flash`, USERROW/BOOTROW) issues exactly one page erase
when the page-aligned target differs from the previous write's page
and none when it is the same page (in particular none on the write
immediately following a write to the same page); the word-flash path
(`write_words_flash`, PROGMEM) does the same while `PGCONF_ERSE` is
clear, and issues none once the chip-erase flag is set.  For variant
V0, a boundary crossing triggers a page-buffer clear, not a
standalone page erase: every V0 flash write uses the combined
erase-write-page command.  `_before_page` is reset to the sentinel
`-1L` (0xFFFFFFFF) by every `UPDI::connect`, and for any power-of-two
page size the first write after a connect always counts as a boundary
crossing. -/
theorem C6_amended_page_erase :
    (∀ (before mask addr : Nat),
      (NVM.V4.write_bytes_flash before mask addr).1 =
        (if before ≠ addr % 2 ^ 32 &&& mask then 1 else 0) ∧
      (NVM.V4.write_bytes_flash
        (NVM.V4.write_bytes_flash before mask addr).2 mask addr).1 = 0) ∧
    (∀ (pg before mask addr : Nat),
      (pg.testBit 2 = false →
        (NVM.V4.write_words_flash pg before mask addr).1 =
          (if before ≠ addr % 2 ^ 32 &&& mask then 1 else 0)) ∧
      (pg.testBit 2 = true →
        (NVM.V4.write_words_flash pg before mask addr).1 = 0 ∧
        (NVM.V4.write_words_flash pg before mask addr).2 = before)) ∧
    (∀ (before mask addr : Nat),
      (NVM.V0.write_flash before mask addr).1 =
        (if before ≠ addr % 2 ^ 32 &&& mask then 1 else 0) ∧
      (NVM.V0.write_flash before mask addr).2.1 = 0 ∧
      (NVM.V0.write_flash before mask addr).2.2.1 = 1) ∧
    (∀ (actRes : Nat → Bool) (sibRes : Nat → Nat) (hv : Bool)
      (hvenBit hvctrl : Nat) (st : UPDI.Sess),
      (UPDI.connect actRes sibRes hv hvenBit hvctrl st).1.before_page =
        2 ^ 32 - 1) ∧
    (∀ (k addr : Nat), 1 ≤ k → k ≤ 15 →
      (SYS.is_boundary_flash_page (2 ^ 32 - 1)
        (SYS.flash_page_mask (2 ^ k / 256) (2 ^ k % 256)) addr).1 = true) := by
  refine ⟨?_, ?_, ?_, ?_, ?_⟩
  · intro before mask addr
    constructor
    · simp only [NVM.V4.write_bytes_flash, SYS.is_boundary_flash_page]
      split <;> simp_all
    · simp only [NVM.V4.write_bytes_flash, SYS.is_boundary_flash_page]
      simp
  · intro pg before mask addr
    constructor
    · intro hc
      simp only [NVM.V4.write_words_flash, hc, Bool.false_eq_true,
        not_false_iff, if_pos, SYS.is_boundary_flash_page]
      split <;> simp_all
    · intro hc
      simp [NVM.V4.write_words_flash, hc]
  · intro before mask addr
    refine ⟨?_, rfl, rfl⟩
    simp only [NVM.V0.write_flash, SYS.is_boundary_flash_page]
    split <;> simp_all
  · intro actRes sibRes hv hvenBit hvctrl st
    simp only [UPDI.connect]
    split <;> split <;> simp [connect_loop_before_page]
  · intro k addr hk1 hk15
    have hmaskbit : (SYS.flash_page_mask (2 ^ k / 256) (2 ^ k % 256)).testBit 0 =
        false := by
      interval_cases k <;> decide
    simp only [SYS.is_boundary_flash_page, decide_eq_true_eq]
    intro heq
    have h0 := congrArg (fun x => Nat.testBit x 0) heq
    simp only [Nat.testBit_and, hmaskbit, Bool.and_false] at h0
    exact absurd h0 (by decide)

/-- Witness for C6 (amended): after a connect (sentinel
`_before_page = 0xFFFFFFFF`), a V4 byte-flash write to address 0 with
a 512-byte page crosses a boundary, and a second write to the same
page erases nothing; with `PGCONF_ERSE` set, the word path erases
nothing. -/
theorem C6_witness :
    (NVM.V4.write_bytes_flash 0xFFFFFFFF 0xFFFFFE00 0).1 = 1 ∧
    (NVM.V4.write_bytes_flash
      (NVM.V4.write_bytes_flash 0xFFFFFFFF 0xFFFFFE00 0).2 0xFFFFFE00 0).1 = 0 ∧
    (NVM.V4.write_words_flash 4 0 0xFFFFFE00 0x800200).1 = 0 ∧
    (SYS.is_boundary_flash_page (2 ^ 32 - 1)
      (SYS.flash_page_mask (2 ^ 9 / 256) (2 ^ 9 % 256)) 0x800000).1 = true := by
  refine ⟨?_, ?_, ?_, ?_⟩
  · have h := (C6_amended_page_erase.1 0xFFFFFFFF 0xFFFFFE00 0).1
    rw [h]
    decide
  · exact (C6_amended_page_erase.1 0xFFFFFFFF 0xFFFFFE00 0).2
  · exact ((C6_amended_page_erase.2.1 4 0 0xFFFFFE00 0x800200).2 (by decide)).1
  · exact C6_amended_page_erase.2.2.2.2 9 0x800000 (by omega) (by omega)

/-! ## C7: TPI write alignment and padding -/

/-- C7, code evaluated at the failing input.  The chunk-size lookup of
`TPI::connect` behaves as claimed (8 for signature 0x920E, 4 for
0x910F, else 2), and the head-alignment loop of `TPI::write_memory`
does adjust an odd start address down one byte and write the 0xFF fill
into the streamed buffer (a 3-byte write at 0x11 becomes a 4-byte
write at 0x10 whose first byte, at buffer address base - 1, is 0xFF).
The tail-alignment loop, however, stores its 0xFF fill through
`(uint8_t*)(_dwAddr + _wLength)` — the absolute data-space address
0x0013 for a 3-byte write at target address 0x10 — instead of the
buffer position `base + 3`, so the fourth streamed byte keeps the
stale buffer content (0xAB here, not 0xFF) and a byte of the
programmer's own RAM outside the packet buffer is overwritten with
0xFF. -/
theorem C7_padding_bug_evaluated :
    TPI.tpi_chunks_of 0x920E = 8 ∧
    TPI.tpi_chunks_of 0x910F = 4 ∧
    TPI.tpi_chunks_of 0x9007 = 2 ∧
    (TPI.write_fix (fun _ => 0xAB) 0x3E00 0x11 3 2).2 = (0x10, 4, 0x3DFF) ∧
    (TPI.write_fix (fun _ => 0xAB) 0x3E00 0x11 3 2).1 0x3DFF = 0xFF ∧
    (TPI.write_fix (fun a => if a = 0x13 then 0x77 else 0xAB) 0x3E00 0x10 3 2).2 =
      (0x10, 4, 0x3E00) ∧
    (TPI.write_fix (fun a => if a = 0x13 then 0x77 else 0xAB) 0x3E00 0x10 3 2).1
      (0x3E00 + 3) = 0xAB ∧
    (TPI.write_fix (fun a => if a = 0x13 then 0x77 else 0xAB) 0x3E00 0x10 3 2).1
      0x13 = 0xFF := by
  refine ⟨by decide, by decide, by decide, by decide, by decide, by decide,
    by decide, by decide⟩

/-! ## C8: TPI minimum supply-voltage gate -/

/-- C8.  The TPI dispatcher (`TPI::jtag_scope_tpi`): when the stored
`_vtarget` millivolt reading is below 4500, an ERASE (0x03) or
WRITE_MEM (0x04) command dispatches no NVM operation and the response
status byte is `XPRG_ERR_FAILED` (0x01); READ_MEM (0x05) is handled
before the voltage gate, so with the link established it dispatches
the read regardless of `_vtarget`; and `_vtarget` is sampled from
`SYS::get_vdd()` by `XPRG_CMD_ENTER_PROGMODE` (0x01). -/
theorem C8_tpi_voltage_gate :
    (∀ (cmd pg vtarget vdd rC rD rR rE rW : Nat),
      vtarget < 4500 → (cmd = 0x03 ∨ cmd = 0x04) →
      (TPI.jtag_scope_tpi cmd pg vtarget vdd rC rD rR rE rW).1 = none ∧
      (TPI.jtag_scope_tpi cmd pg vtarget vdd rC rD rR rE rW).2.2.1 = 0x01) ∧
    (∀ (pg vtarget vdd rC rD rR rE rW : Nat),
      pg.testBit 0 = true →
      (TPI.jtag_scope_tpi 0x05 pg vtarget vdd rC rD rR rE rW).1 =
        some TPI.TpiOp.read) ∧
    (∀ (pg vtarget vdd rC rD rR rE rW : Nat),
      (TPI.jtag_scope_tpi 0x01 pg vtarget vdd rC rD rR rE rW).2.2.2 = vdd) := by
  refine ⟨?_, ?_, ?_⟩
  · intro cmd pg vtarget vdd rC rD rR rE rW hv hcmd
    rcases hcmd with h | h <;> subst h <;>
      cases hpg : pg.testBit 0 <;>
        simp [TPI.jtag_scope_tpi, hpg, hv]
  · intro pg vtarget vdd rC rD rR rE rW hpg
    simp [TPI.jtag_scope_tpi, hpg]
  · intro pg vtarget vdd rC rD rR rE rW
    simp [TPI.jtag_scope_tpi]

/-- Witness for C8: at 3300 mV, ERASE dispatches nothing and fails,
while READ_MEM still dispatches the read. -/
theorem C8_witness :
    (TPI.jtag_scope_tpi 0x03 1 3300 3300 1 1 1 1 1).1 = none ∧
    (TPI.jtag_scope_tpi 0x03 1 3300 3300 1 1 1 1 1).2.2.1 = 0x01 ∧
    (TPI.jtag_scope_tpi 0x05 1 3300 3300 1 1 1 1 1).1 = some TPI.TpiOp.read := by
  have h1 := C8_tpi_voltage_gate.1 0x03 1 3300 3300 1 1 1 1 1 (by omega) (Or.inl rfl)
  have h2 := C8_tpi_voltage_gate.2.1 1 3300 3300 1 1 1 1 1 (by decide)
  exact ⟨h1.1, h1.2, h2⟩

/-! ## C9: dummy responses outside programming mode -/

/-- Counterexample to C9 as stated: in the state it describes (link
bit set, programming bit clear, SIB read), a READ_MEMORY of memory
type `MTYPE_SIB` (0xD3) — a memory type other than SIGNATURE — is
answered with the stored SIB bytes and `RSP3_DATA`, not with 0xFF
fill: here the first response data byte is the SIB byte 0x41. -/
theorem C9_counterexample :
    (UPDI.jtag_scope_updi 1 (fun i => if i = 10 then 0x33 else 0x41) (fun _ => 0)
      0x21 0xD3 0 4 (fun p => (p, 1)) (fun p => (p, 1)) (fun p => (p, 1))
      (fun p => (p, 1)) (fun p => (p, 1)) 1).2.2.2 0 = 0x41 ∧
    (0x41 : Nat) ≠ 0xFF ∧
    (UPDI.jtag_scope_updi 1 (fun i => if i = 10 then 0x33 else 0x41) (fun _ => 0)
      0x21 0xD3 0 4 (fun p => (p, 1)) (fun p => (p, 1)) (fun p => (p, 1))
      (fun p => (p, 1)) (fun p => (p, 1)) 1).1 = 0x184 ∧
    Nat.testBit 1 0 = true ∧ Nat.testBit 1 1 = false := by
  exact ⟨by decide, by decide, by decide, by decide, by decide⟩

/-- C9 as amended.  For a UPDI READ_MEMORY (0x21) issued with the
link established, programming mode not granted and the SIB read
(`_sib[0] ≠ 0`), with a length below the 16-bit wrap: a SIGNATURE
read (`MTYPE_SIGN_JTAG`, 0xB4) is answered `RSP3_DATA` carrying the
synthesized dummy signature — first byte 0x1E, second the SIB's first
character (with blank mapped to 'A'), third the SIB's NVM-version
character `_sib[10]`; memory types other than SIGNATURE and the SIB
pseudo-type `MTYPE_SIB` (0xD3) are answered `RSP3_DATA` with the data
filled with 0xFF; `MTYPE_SIB` (read before the programming-mode
check) is answered `RSP3_DATA` carrying the stored SIB bytes. -/
theorem C9_amended_dummy_responses :
    ∀ (pg : Nat) (sib data : Nat → Nat) (mtype dwAddr len : Nat)
      (oC oD oE oEr oW : Nat → Nat × Nat) (oR : Nat),
    pg.testBit 0 = true → pg.testBit 1 = false → sib 0 ≠ 0 → len ≤ 65534 →
    (mtype = 0xB4 →
      (UPDI.jtag_scope_updi pg sib data 0x21 mtype dwAddr len oC oD oE oEr oW oR).1 =
        0x184 ∧
      (UPDI.jtag_scope_updi pg sib data 0x21 mtype dwAddr len oC oD oE oEr oW oR).2.1 =
        len + 1 ∧
      (UPDI.jtag_scope_updi pg sib data 0x21 mtype dwAddr len oC oD oE oEr oW oR).2.2.2 0 =
        0x1E ∧
      (UPDI.jtag_scope_updi pg sib data 0x21 mtype dwAddr len oC oD oE oEr oW oR).2.2.2 1 =
        (if sib 0 = 0x20 then 0x41 else sib 0) ∧
      (UPDI.jtag_scope_updi pg sib data 0x21 mtype dwAddr len oC oD oE oEr oW oR).2.2.2 2 =
        sib 10) ∧
    (mtype ≠ 0xB4 → mtype ≠ 0xD3 →
      (UPDI.jtag_scope_updi pg sib data 0x21 mtype dwAddr len oC oD oE oEr oW oR).1 =
        0x184 ∧
      (∀ i, i < len →
        (UPDI.jtag_scope_updi pg sib data 0x21 mtype dwAddr len oC oD oE oEr oW oR).2.2.2 i =
          0xFF)) ∧
    (mtype = 0xD3 →
      (UPDI.jtag_scope_updi pg sib data 0x21 mtype dwAddr len oC oD oE oEr oW oR).1 =
        0x184 ∧
      (∀ i, i < ((len + 65535) % 65536 &&& 31) + 1 →
        (UPDI.jtag_scope_updi pg sib data 0x21 mtype dwAddr len oC oD oE oEr oW oR).2.2.2
          ((dwAddr % 256 &&& 31) + i) = sib i)) := by
  intro pg sib data mtype dwAddr len oC oD oE oEr oW oR hlink hprog hsib hlen
  have hlen16 : len % 65536 = len := by omega
  have hplus : (len + 1) % 65536 = len + 1 := by omega
  have hstep : ∀ m, m ≠ 0xD3 →
      UPDI.jtag_scope_updi pg sib data 0x21 m dwAddr len oC oD oE oEr oW oR =
        (if (UPDI.read_dummy data sib m len).2 ≠ 0 then 0x184 else 0xA0,
         (UPDI.read_dummy data sib m len).2, pg,
         (UPDI.read_dummy data sib m len).1) := by
    intro m hm
    simp only [UPDI.jtag_scope_updi]
    simp [hlink, hprog, hm]
  have hsibstep :
      UPDI.jtag_scope_updi pg sib data 0x21 0xD3 dwAddr len oC oD oE oEr oW oR =
        (if (len % 65536 + 1) % 65536 ≠ 0 then 0x184 else 0xA0,
         (len % 65536 + 1) % 65536, pg,
         bcopy data (dwAddr % 256 &&& 31)
           ((List.range (((len + 65535) % 65536 &&& 31) + 1)).map sib)) := by
    simp only [UPDI.jtag_scope_updi]
    simp [hlink]
  have hdummy2 : (UPDI.read_dummy data sib 0xB4 len).2 = len + 1 := by
    simp only [UPDI.read_dummy]
    rw [if_pos ⟨trivial, hsib⟩]
    simpa using hplus
  refine ⟨?_, ?_, ?_⟩
  · intro hmt
    subst hmt
    rw [hstep 0xB4 (by decide)]
    refine ⟨by simp [hdummy2], by simpa using hdummy2, ?_, ?_, ?_⟩ <;>
      · simp only [UPDI.read_dummy]
        rw [if_pos ⟨trivial, hsib⟩]
        simp [bset]
  · intro hmt1 hmt2
    rw [hstep mtype hmt2]
    have hd2 : (UPDI.read_dummy data sib mtype len).2 = len + 1 := by
      simp only [UPDI.read_dummy]
      rw [if_neg (by rintro ⟨h, _⟩; exact hmt1 h)]
      simpa using hplus
    refine ⟨by simp [hd2], ?_⟩
    intro i hi
    simp only [UPDI.read_dummy]
    rw [if_neg (by rintro ⟨h, _⟩; exact hmt1 h)]
    simp only
    rw [if_pos (by omega)]
  · intro hmt
    subst hmt
    rw [hsibstep]
    refine ⟨by simp [hlen16, hplus], ?_⟩
    intro i hi
    simp only
    rw [bcopy_inside _ _ _ _ (by simpa using hi)]
    simp [List.getD_eq_getElem?_getD, List.getElem?_map, List.getElem?_range, hi]

/-- Witness for C9 (amended): a locked-device signature read of
length 4 yields RSP3_DATA with the dummy signature `1E 41 33`, and a
fuse read in the same state yields 0xFF fill. -/
theorem C9_witness :
    (UPDI.jtag_scope_updi 1 (fun i => if i = 10 then 0x33 else 0x41) (fun _ => 0)
      0x21 0xB4 0 4 (fun p => (p, 1)) (fun p => (p, 1)) (fun p => (p, 1))
      (fun p => (p, 1)) (fun p => (p, 1)) 1).2.2.2 0 = 0x1E ∧
    (UPDI.jtag_scope_updi 1 (fun i => if i = 10 then 0x33 else 0x41) (fun _ => 0)
      0x21 0xB2 0 4 (fun p => (p, 1)) (fun p => (p, 1)) (fun p => (p, 1))
      (fun p => (p, 1)) (fun p => (p, 1)) 1).2.2.2 0 = 0xFF := by
  have h1 := C9_amended_dummy_responses 1 (fun i => if i = 10 then 0x33 else 0x41)
    (fun _ => 0) 0xB4 0 4 (fun p => (p, 1)) (fun p => (p, 1)) (fun p => (p, 1))
    (fun p => (p, 1)) (fun p => (p, 1)) 1 (by decide) (by decide) (by decide)
    (by omega)
  have h2 := C9_amended_dummy_responses 1 (fun i => if i = 10 then 0x33 else 0x41)
    (fun _ => 0) 0xB2 0 4 (fun p => (p, 1)) (fun p => (p, 1)) (fun p => (p, 1))
    (fun p => (p, 1)) (fun p => (p, 1)) 1 (by decide) (by decide) (by decide)
    (by omega)
  exact ⟨(h1.1 rfl).2.2.1, (h2.2.1 (by decide) (by decide)).2 0 (by omega)⟩

/-! ## C10: dispatch of unknown scopes and commands -/

/-- Counterexample to C10 as stated: an unknown top-level scope does
not yield a failure response code.  No handler runs, so the response
code field `packet.in.res` (rawData[5..6]) keeps the echoed command
byte: for a command with scope 0x02 (unrecognized) and command byte
0x80, the served response carries `res = 0x0080`, which is RSP3_OK —
a success code, not RSP3_FAILED. -/
theorem C10_counterexample :
    (JTAG.jtag_scope_branch
      (fun j => if j = 4 then 0x02 else if j = 5 then 0x80 else 0)
      5 0 5000 5000 (fun _ => 0) (fun p => (p, 1)) (fun p => (p, 1))
      (fun p => (p, 1)) (fun p => (p, 1)) (fun p => (p, 1)) 1 1 1 1 1 1).1 5 =
      0x80 ∧
    (JTAG.jtag_scope_branch
      (fun j => if j = 4 then 0x02 else if j = 5 then 0x80 else 0)
      5 0 5000 5000 (fun _ => 0) (fun p => (p, 1)) (fun p => (p, 1))
      (fun p => (p, 1)) (fun p => (p, 1)) (fun p => (p, 1)) 1 1 1 1 1 1).1 6 =
      0x00 := by
  exact ⟨by decide, by decide⟩

/-- C10 as amended.  Unknown commands and selectors yield failure
responses only in some scopes: (1) in the AVR-core scope an
unrecognized architecture selector yields `RSP3_FAILED` (0xA0) with
zero data; (2) with the UPDI architecture selected, an unrecognized
command yields `RSP3_FAILED` with zero data; (3) in the TPI scope an
unrecognized command yields status `XPRG_ERR_FAILED` (0x01); but
(4, 5, 6) in the general scope, in the EDBG scope, and for an
unrecognized top-level scope the response-code field is left
unwritten — the response carries the echoed command byte there (and a
zero high byte from the response terminator), so such commands are
not answered with a failure code and, when the echoed byte happens to
be 0x80, even spell RSP3_OK. -/
theorem C10_amended_unknown_dispatch :
    (∀ (raw : Nat → Nat) (arch pg vtarget vdd : Nat) (sib : Nat → Nat)
      (oC oD oE oEr oW : Nat → Nat × Nat) (oR tC tD tR tE tW : Nat),
      raw 4 = 0x12 → raw 5 ≠ 0x01 → raw 5 ≠ 0x02 → arch ≠ 0x05 →
      (JTAG.jtag_scope_branch raw arch pg vtarget vdd sib oC oD oE oEr oW oR
        tC tD tR tE tW).1 5 = 0xA0 ∧
      (JTAG.jtag_scope_branch raw arch pg vtarget vdd sib oC oD oE oEr oW oR
        tC tD tR tE tW).1 6 = 0 ∧
      (JTAG.jtag_scope_branch raw arch pg vtarget vdd sib oC oD oE oEr oW oR
        tC tD tR tE tW).2.1 = 0) ∧
    (∀ (raw : Nat → Nat) (pg vtarget vdd : Nat) (sib : Nat → Nat)
      (oC oD oE oEr oW : Nat → Nat × Nat) (oR tC tD tR tE tW : Nat),
      raw 4 = 0x12 → raw 5 ≠ 0x01 → raw 5 ≠ 0x02 →
      raw 5 ≠ 0x10 → raw 5 ≠ 0x11 → raw 5 ≠ 0x15 → raw 5 ≠ 0x16 →
      raw 5 ≠ 0x20 → raw 5 ≠ 0x21 → raw 5 ≠ 0x23 →
      (JTAG.jtag_scope_branch raw 0x05 pg vtarget vdd sib oC oD oE oEr oW oR
        tC tD tR tE tW).1 5 = 0xA0 ∧
      (JTAG.jtag_scope_branch raw 0x05 pg vtarget vdd sib oC oD oE oEr oW oR
        tC tD tR tE tW).1 6 = 0 ∧
      (JTAG.jtag_scope_branch raw 0x05 pg vtarget vdd sib oC oD oE oEr oW oR
        tC tD tR tE tW).2.1 = 0) ∧
    (∀ (raw : Nat → Nat) (arch pg vtarget vdd : Nat) (sib : Nat → Nat)
      (oC oD oE oEr oW : Nat → Nat × Nat) (oR tC tD tR tE tW : Nat),
      raw 4 = 0x14 → raw 5 ≠ 0x01 → raw 5 ≠ 0x02 → raw 5 ≠ 0x03 →
      raw 5 ≠ 0x04 → raw 5 ≠ 0x05 → raw 5 ≠ 0x06 → raw 5 ≠ 0x07 →
      (JTAG.jtag_scope_branch raw arch pg vtarget vdd sib oC oD oE oEr oW oR
        tC tD tR tE tW).1 6 = 0x01 ∧
      (JTAG.jtag_scope_branch raw arch pg vtarget vdd sib oC oD oE oEr oW oR
        tC tD tR tE tW).1 5 = raw 5 ∧
      (JTAG.jtag_scope_branch raw arch pg vtarget vdd sib oC oD oE oEr oW oR
        tC tD tR tE tW).2.1 = 1) ∧
    (∀ (raw : Nat → Nat) (arch pg vtarget vdd : Nat) (sib : Nat → Nat)
      (oC oD oE oEr oW : Nat → Nat × Nat) (oR tC tD tR tE tW : Nat),
      raw 4 = 0x01 → raw 5 ≠ 0x02 → raw 5 ≠ 0x10 → raw 5 ≠ 0x11 →
      (JTAG.jtag_scope_branch raw arch pg vtarget vdd sib oC oD oE oEr oW oR
        tC tD tR tE tW).1 5 = raw 5 ∧
      (JTAG.jtag_scope_branch raw arch pg vtarget vdd sib oC oD oE oEr oW oR
        tC tD tR tE tW).1 6 = 0 ∧
      (JTAG.jtag_scope_branch raw arch pg vtarget vdd sib oC oD oE oEr oW oR
        tC tD tR tE tW).2.1 = 0) ∧
    (∀ (raw : Nat → Nat) (arch pg vtarget vdd : Nat) (sib : Nat → Nat)
      (oC oD oE oEr oW : Nat → Nat × Nat) (oR tC tD tR tE tW : Nat),
      raw 4 = 0x20 → raw 5 ≠ 0x01 → raw 5 ≠ 0x02 →
      (JTAG.jtag_scope_branch raw arch pg vtarget vdd sib oC oD oE oEr oW oR
        tC tD tR tE tW).1 5 = raw 5 ∧
      (JTAG.jtag_scope_branch raw arch pg vtarget vdd sib oC oD oE oEr oW oR
        tC tD tR tE tW).1 6 = 0 ∧
      (JTAG.jtag_scope_branch raw arch pg vtarget vdd sib oC oD oE oEr oW oR
        tC tD tR tE tW).2.1 = 0) ∧
    (∀ (raw : Nat → Nat) (arch pg vtarget vdd : Nat) (sib : Nat → Nat)
      (oC oD oE oEr oW : Nat → Nat × Nat) (oR tC tD tR tE tW : Nat),
      raw 4 ≠ 0x01 → raw 4 ≠ 0x12 → raw 4 ≠ 0x14 → raw 4 ≠ 0x20 →
      (JTAG.jtag_scope_branch raw arch pg vtarget vdd sib oC oD oE oEr oW oR
        tC tD tR tE tW).1 5 = raw 5 ∧
      (JTAG.jtag_scope_branch raw arch pg vtarget vdd sib oC oD oE oEr oW oR
        tC tD tR tE tW).1 6 = 0 ∧
      (JTAG.jtag_scope_branch raw arch pg vtarget vdd sib oC oD oE oEr oW oR
        tC tD tR tE tW).2.1 = 0) := by
  refine ⟨?_, ?_, ?_, ?_, ?_, ?_⟩
  · intro raw arch pg vtarget vdd sib oC oD oE oEr oW oR tC tD tR tE tW
    intro h4 h1 h2 ha
    simp only [JTAG.jtag_scope_branch, JTAG.jtag_scope_avr_core,
      JTAG.complete_jtag_transactions]
    simp [h4, h1, h2, ha, bset]
  · intro raw pg vtarget vdd sib oC oD oE oEr oW oR tC tD tR tE tW
    intro h4 h1 h2 h10 h11 h15 h16 h20 h21 h23
    simp only [JTAG.jtag_scope_branch, JTAG.jtag_scope_avr_core,
      UPDI.jtag_scope_updi, JTAG.complete_jtag_transactions]
    by_cases hpg : pg.testBit 0 = true <;>
      simp [h4, h1, h2, h10, h11, h15, h16, h20, h21, h23, hpg, bset]
  · intro raw arch pg vtarget vdd sib oC oD oE oEr oW oR tC tD tR tE tW
    intro h4 h1 h2 h3 h5 h6 h7 h8
    simp only [JTAG.jtag_scope_branch, TPI.jtag_scope_tpi,
      JTAG.complete_jtag_transactions]
    by_cases hpg : pg.testBit 0 = true <;>
    by_cases hv : vtarget < 4500 <;>
      simp [h4, h1, h2, h3, h5, h6, h7, h8, hpg, hv, bset]
  · intro raw arch pg vtarget vdd sib oC oD oE oEr oW oR tC tD tR tE tW
    intro h4 h2 h10 h11
    simp only [JTAG.jtag_scope_branch, JTAG.jtag_scope_general,
      JTAG.complete_jtag_transactions]
    simp [h4, h2, h10, h11, bset]
  · intro raw arch pg vtarget vdd sib oC oD oE oEr oW oR tC tD tR tE tW
    intro h4 h1 h2
    simp only [JTAG.jtag_scope_branch, JTAG.jtag_scope_edbg,
      JTAG.complete_jtag_transactions]
    simp [h4, h1, h2, bset]
  · intro raw arch pg vtarget vdd sib oC oD oE oEr oW oR tC tD tR tE tW
    intro hs1 hs2 hs3 hs4
    simp only [JTAG.jtag_scope_branch, JTAG.complete_jtag_transactions]
    simp [hs1, hs2, hs3, hs4, bset]

/-- Witness for C10 (amended): an AVR-core command with an
unrecognized architecture selector 4 is answered RSP3_FAILED with zero
data, and an unknown TPI-scope command is answered XPRG_ERR_FAILED. -/
theorem C10_witness :
    (JTAG.jtag_scope_branch
      (fun j => if j = 4 then 0x12 else if j = 5 then 0x42 else 0)
      4 0 5000 5000 (fun _ => 0) (fun p => (p, 1)) (fun p => (p, 1))
      (fun p => (p, 1)) (fun p => (p, 1)) (fun p => (p, 1)) 1 1 1 1 1 1).1 5 =
      0xA0 ∧
    (JTAG.jtag_scope_branch
      (fun j => if j = 4 then 0x14 else if j = 5 then 0x42 else 0)
      4 0 5000 5000 (fun _ => 0) (fun p => (p, 1)) (fun p => (p, 1))
      (fun p => (p, 1)) (fun p => (p, 1)) (fun p => (p, 1)) 1 1 1 1 1 1).1 6 =
      0x01 := by
  have h1 := C10_amended_unknown_dispatch.1
    (fun j => if j = 4 then 0x12 else if j = 5 then 0x42 else 0)
    4 0 5000 5000 (fun _ => 0) (fun p => (p, 1)) (fun p => (p, 1))
    (fun p => (p, 1)) (fun p => (p, 1)) (fun p => (p, 1)) 1 1 1 1 1 1
    (by decide) (by decide) (by decide) (by decide)
  have h2 := C10_amended_unknown_dispatch.2.2.1
    (fun j => if j = 4 then 0x14 else if j = 5 then 0x42 else 0)
    4 0 5000 5000 (fun _ => 0) (fun p => (p, 1)) (fun p => (p, 1))
    (fun p => (p, 1)) (fun p => (p, 1)) (fun p => (p, 1)) 1 1 1 1 1 1
    (by decide) (by decide) (by decide) (by decide) (by decide) (by decide)
    (by decide) (by decide)
  exact ⟨h1.1, h2.1⟩

end UPDI4AVR
